import Mathlib

/-!
# WindowSDK transcoder samples: profile negotiation and session driver

Shallow embedding of `CTranscoder` from
`src/TranscodeToAAC/Transcode.cpp` and `src/TranscodeToMp4-MP3/Transcode.cpp`.

* An `HRESULT` is a signed 32-bit status; it is kept as an `Int`, and the
  macros `FAILED` / `SUCCEEDED` test its sign.
* The Media Foundation engine is external.  Every engine call made by the
  code is represented by the status it returns (a field of an engine record
  or of an event record) and, where the call has an out-parameter, by the
  value it writes when it succeeds.  A failing call leaves its out-parameter
  as it was.
* GUIDs, attribute keys and event types are symbolic: one constructor per
  constant named in the source, plus a constructor for every other value.
-/

namespace WindowSDK

/-! ## Status codes -/

/-- A COM status code (`HRESULT`, a signed 32-bit integer). -/
abbrev HRESULT := Int

/-- The signed 32-bit value of the bit pattern `bits`, as in `((HRESULT)0x8000FFFFL)`. -/
def HRESULT_FROM_BITS (bits : Nat) : HRESULT :=
  if bits % 2 ^ 32 < 2 ^ 31 then ((bits % 2 ^ 32 : Nat) : Int)
  else ((bits % 2 ^ 32 : Nat) : Int) - 2 ^ 32

/-- The status `S_OK`. -/
def S_OK : HRESULT := 0

/-- The status `S_FALSE`, a success code. -/
def S_FALSE : HRESULT := 1

/-- The status `E_UNEXPECTED`. -/
def E_UNEXPECTED : HRESULT := HRESULT_FROM_BITS 0x8000FFFF

/-- The status `E_FAIL`. -/
def E_FAIL : HRESULT := HRESULT_FROM_BITS 0x80004005

/-- The status `E_OUTOFMEMORY` in its Win32 form, the code of E2E scenario C. -/
def E_OUTOFMEMORY : HRESULT := HRESULT_FROM_BITS 0x8007000E

/-- The status `MF_E_ATTRIBUTENOTFOUND`. -/
def MF_E_ATTRIBUTENOTFOUND : HRESULT := HRESULT_FROM_BITS 0xC00D36E6

/-- The status `MF_E_INVALIDTYPE`. -/
def MF_E_INVALIDTYPE : HRESULT := HRESULT_FROM_BITS 0xC00D36E7

/-- The macro `FAILED(hr)`: `((HRESULT)(hr)) < 0`. -/
def FAILED (hr : HRESULT) : Bool := decide (hr < 0)

/-- The macro `SUCCEEDED(hr)`: `((HRESULT)(hr)) >= 0`. -/
def SUCCEEDED (hr : HRESULT) : Bool := decide (0 ≤ hr)

/-- The value of a C++ `bool` converted to `HRESULT`, as in `return FAILED(hr);`. -/
def boolToHRESULT (b : Bool) : HRESULT := if b then 1 else 0

/-! ## Session driver: `CTranscoder::Transcode` -/

/-- The media event types the driver distinguishes; `other` stands for every
other `MediaEventType` value. -/
inductive MediaEventType where
  | MEUnknown
  | MESessionTopologySet
  | MESessionStarted
  | MESessionEnded
  | MESessionClosed
  | other (code : Nat)
  deriving DecidableEq, Repr

/-- A command the driver issues to the media session. -/
inductive SessionCommand where
  | Start
  | Close
  deriving DecidableEq, Repr

/-- What the engine answers during one pass through the loop body:
the status of `GetEvent`, the status and value of `GetType`, the status and
value of `GetStatus`, and the status the session returns to a command
(`m_pSession->Start` or `m_pSession->Close`) issued while this event is
handled. -/
structure SessionEvent where
  hrGetEvent : HRESULT
  hrGetType : HRESULT
  meType : MediaEventType
  hrGetStatus : HRESULT
  hrStatus : HRESULT
  hrCommand : HRESULT
  deriving DecidableEq, Repr

/-- The local variables of `Transcode` that live across iterations, together
with two observations: the commands issued so far and the number of
`GetEvent` calls made so far. -/
structure TranscodeState where
  meType : MediaEventType
  hr : HRESULT
  hrStatus : HRESULT
  commands : List SessionCommand
  pulled : Nat
  deriving DecidableEq, Repr

/-- The method `CTranscoder::Start`: returns the status of `m_pSession->Start`. -/
def Start (hrSessionStart : HRESULT) : HRESULT := hrSessionStart

/-- The `switch (meType)` of the loop body. -/
def dispatch (s : TranscodeState) (e : SessionEvent) : TranscodeState :=
  match s.meType with
  | .MESessionTopologySet =>
      { s with hr := Start e.hrCommand, commands := s.commands ++ [SessionCommand.Start] }
  | .MESessionStarted => s
  | .MESessionEnded =>
      { s with hr := e.hrCommand, commands := s.commands ++ [SessionCommand.Close] }
  | .MESessionClosed => s
  | _ => s

/-- One pass through the body of the `while` loop.  The flag is `true` when
the pass leaves the loop through a `break`. -/
def loopBody (s : TranscodeState) (e : SessionEvent) : Bool × TranscodeState :=
  -- hr = m_pSession->GetEvent(0, &pEvent);
  let s1 := { s with hr := e.hrGetEvent, pulled := s.pulled + 1 }
  if FAILED s1.hr then (true, s1) else
  -- hr = pEvent->GetType(&meType);
  let s2 := { s1 with hr := e.hrGetType,
                      meType := if SUCCEEDED e.hrGetType then e.meType else s1.meType }
  if FAILED s2.hr then (true, s2) else
  -- hr = pEvent->GetStatus(&hrStatus);
  let s3 := { s2 with hr := e.hrGetStatus,
                      hrStatus := if SUCCEEDED e.hrGetStatus then e.hrStatus else s2.hrStatus }
  if FAILED s3.hr then (true, s3) else
  -- if (FAILED(hrStatus)) { hr = hrStatus; break; }
  if FAILED s3.hrStatus then (true, { s3 with hr := s3.hrStatus }) else
  let s4 := dispatch s3 e
  if FAILED s4.hr then (true, s4) else (false, s4)

/-- The `while (meType != MESessionClosed)` loop over the events the session
delivers.  The flag is `true` when the loop has been left; it is `false`
when the events are used up while the loop is still running, in which case
the next `GetEvent` blocks. -/
def transcodeLoop (s : TranscodeState) : List SessionEvent → Bool × TranscodeState
  | [] => (decide (s.meType = MediaEventType.MESessionClosed), s)
  | e :: rest =>
      if s.meType = MediaEventType.MESessionClosed then (true, s)
      else
        let r := loopBody s e
        if r.1 then (true, r.2) else transcodeLoop r.2 rest

/-- The outcome of a run of `Transcode`: the returned status (`none` while the
call is still blocked waiting for an event), the commands issued, and the
number of events pulled. -/
structure TranscodeOutcome where
  result : Option HRESULT
  commands : List SessionCommand
  pulled : Nat
  deriving DecidableEq, Repr

/-- The initial values of the locals of `Transcode`. -/
def transcodeInit : TranscodeState :=
  { meType := MediaEventType.MEUnknown, hr := S_OK, hrStatus := S_OK, commands := [], pulled := 0 }

/-- The method `CTranscoder::Transcode` (identical in both variants), run
against the events `evs`. -/
def Transcode (evs : List SessionEvent) : TranscodeOutcome :=
  let r := transcodeLoop transcodeInit evs
  { result := if r.1 then some r.2.hr else none, commands := r.2.commands, pulled := r.2.pulled }

/-- An event delivered without any read failure, of type `t` and status `st`,
whose command (if one is issued) is answered with `cmd`. -/
def mkEvent (t : MediaEventType) (st cmd : HRESULT) : SessionEvent :=
  { hrGetEvent := S_OK, hrGetType := S_OK, meType := t, hrGetStatus := S_OK,
    hrStatus := st, hrCommand := cmd }

/-! ## Attribute stores -/

/-- The GUID constants named in the source, `GUID_NULL` (the value of
`GUID x = { 0 }`), the video major type, and `other` for every other GUID. -/
inductive GUID where
  | GUID_NULL
  | MFMediaType_Audio
  | MFMediaType_Video
  | MFAudioFormat_AAC
  | MFAudioFormat_MP3
  | MFVideoFormat_H264
  | MFTranscodeContainerType_ADTS
  | MFTranscodeContainerType_MPEG4
  | other (id : Nat)
  deriving DecidableEq, Repr

/-- The attribute keys named in the source, and `other` for every other key. -/
inductive AttrKey where
  | MF_MT_MAJOR_TYPE
  | MF_MT_SUBTYPE
  | MF_MT_AUDIO_BITS_PER_SAMPLE
  | MF_MT_AUDIO_SAMPLES_PER_SECOND
  | MF_MT_AUDIO_NUM_CHANNELS
  | MF_MT_AUDIO_AVG_BYTES_PER_SECOND
  | MF_MT_AAC_PAYLOAD_TYPE
  | MF_MT_AAC_AUDIO_PROFILE_LEVEL_INDICATION
  | MF_MT_AUDIO_BLOCK_ALIGNMENT
  | MF_MT_ALL_SAMPLES_INDEPENDENT
  | MF_MT_MPEG2_PROFILE
  | MF_MT_FRAME_SIZE
  | MF_MT_FRAME_RATE
  | MF_MT_AVG_BITRATE
  | MF_TRANSCODE_CONTAINERTYPE
  | MF_TRANSCODE_ADJUST_PROFILE
  | other (id : Nat)
  deriving DecidableEq, Repr

/-- A typed attribute value. -/
inductive AttrValue where
  | uint32 (v : Nat)
  | uint64 (v : Nat)
  | guid (g : GUID)
  | str (s : String)
  | blob (bytes : List Nat)
  deriving DecidableEq, Repr

/-- The content of an `IMFAttributes` store: its items, each key at most
once, in insertion order. -/
abbrev Attributes := List (AttrKey × AttrValue)

/-- An `IMFMediaType` is an attribute store; its major type and subtype are
the items `MF_MT_MAJOR_TYPE` and `MF_MT_SUBTYPE`. -/
abbrev MediaType := Attributes

/-- The item stored under `k`, if any. -/
def GetItem : Attributes → AttrKey → Option AttrValue
  | [], _ => none
  | (k', v) :: rest, k => if k' = k then some v else GetItem rest k

/-- Store `v` under `k`, replacing the item already there or adding a new one. -/
def SetItem : Attributes → AttrKey → AttrValue → Attributes
  | [], k, v => [(k, v)]
  | (k', v') :: rest, k, v =>
      if k' = k then (k, v) :: rest else (k', v') :: SetItem rest k v

/-- A call with an out-parameter: returns `hrCall`, and the out-parameter
holds `new` when the call succeeded and its previous value `old` otherwise. -/
def outParam {α : Type} (hrCall : HRESULT) (new old : α) : HRESULT × α :=
  (hrCall, if SUCCEEDED hrCall then new else old)

/-- The pattern `if (SUCCEEDED(hr)) { hr = call(&x); }` on the pair `(hr, x)`. -/
def guarded {α : Type} (s : HRESULT × α) (call : α → HRESULT × α) : HRESULT × α :=
  if SUCCEEDED s.1 then call s.2 else s

/-- The call `IMFAttributes::GetGUID(k, &out)`.  `hrCall` is the status the
store returns when the item is there and is a GUID; a missing item gives
`MF_E_ATTRIBUTENOTFOUND` and an item of another type `MF_E_INVALIDTYPE`. -/
def GetGUID (hrCall : HRESULT) (a : Attributes) (k : AttrKey) (old : GUID) : HRESULT × GUID :=
  match GetItem a k with
  | some (AttrValue.guid g) => outParam hrCall g old
  | some _ => (MF_E_INVALIDTYPE, old)
  | none => (MF_E_ATTRIBUTENOTFOUND, old)

/-- The helper `MFGetAttributeUINT32(pAttributes, guidKey, unDefault)` of
`mfapi.h`: the UINT32 stored under the key, or `unDefault` when `GetUINT32`
fails (no item, or an item of another type). -/
def MFGetAttributeUINT32 (a : Attributes) (k : AttrKey) (unDefault : Nat) : Nat :=
  match GetItem a k with
  | some (AttrValue.uint32 v) => v
  | _ => unDefault

/-- The call `IMFAttributes::SetGUID(k, g)` answered with `hrCall`. -/
def SetGUID (hrCall : HRESULT) (k : AttrKey) (g : GUID) (a : Attributes) :
    HRESULT × Attributes :=
  outParam hrCall (SetItem a k (AttrValue.guid g)) a

/-- The call `IMFAttributes::SetUINT32(k, v)` answered with `hrCall`; `v` is
a `UINT32` by its C++ type. -/
def SetUINT32 (hrCall : HRESULT) (k : AttrKey) (v : Nat) (a : Attributes) :
    HRESULT × Attributes :=
  outParam hrCall (SetItem a k (AttrValue.uint32 v)) a

/-- The call `IMFAttributes::SetUINT64(k, v)` answered with `hrCall`; `v` is
a `UINT64` by its C++ type. -/
def SetUINT64 (hrCall : HRESULT) (k : AttrKey) (v : Nat) (a : Attributes) :
    HRESULT × Attributes :=
  outParam hrCall (SetItem a k (AttrValue.uint64 v)) a

/-- The helper `Pack2UINT32AsUINT64(unHigh, unLow)` of `mfapi.h`:
`((UINT64)unHigh << 32) | unLow`. -/
def Pack2UINT32AsUINT64 (unHigh unLow : Nat) : Nat :=
  (((unHigh % 2 ^ 32) <<< 32) ||| (unLow % 2 ^ 32)) % 2 ^ 64

/-- The helper `MFSetAttributeSize(pAttributes, guidKey, unWidth, unHeight)`
of `mfapi.h`: stores the width in the high and the height in the low half of
a UINT64. -/
def MFSetAttributeSize (hrCall : HRESULT) (k : AttrKey) (unWidth unHeight : Nat)
    (a : Attributes) : HRESULT × Attributes :=
  SetUINT64 hrCall k (Pack2UINT32AsUINT64 unWidth unHeight) a

/-- The helper `MFSetAttributeRatio(pAttributes, guidKey, unNumerator,
unDenominator)` of `mfapi.h`. -/
def MFSetAttributeRatio (hrCall : HRESULT) (k : AttrKey) (unNumerator unDenominator : Nat)
    (a : Attributes) : HRESULT × Attributes :=
  SetUINT64 hrCall k (Pack2UINT32AsUINT64 unNumerator unDenominator) a

/-- The content of the transcode profile `m_pProfile`: the attribute stores
attached so far. -/
structure TranscodeProfile where
  audio : Option Attributes
  video : Option Attributes
  container : Option Attributes
  deriving DecidableEq, Repr

/-- The call `m_pProfile->SetAudioAttributes(pAttrs)` answered with `hrCall`. -/
def SetAudioAttributes (hrCall : HRESULT) (pAttrs : Attributes) (p : TranscodeProfile) :
    HRESULT × TranscodeProfile :=
  outParam hrCall { p with audio := some pAttrs } p

/-- The call `m_pProfile->SetVideoAttributes(pAttrs)` answered with `hrCall`. -/
def SetVideoAttributes (hrCall : HRESULT) (pAttrs : Attributes) (p : TranscodeProfile) :
    HRESULT × TranscodeProfile :=
  outParam hrCall { p with video := some pAttrs } p

/-! ## Audio negotiation: `CTranscoder::ConfigureAudioOutput` -/

/-- What the engine answers to the calls of `ConfigureAudioOutput`: the
status of each call, and the collection of media types that
`MFTranscodeGetAudioOutputAvailableTypes` hands out.  `hrGetGUID k` is the
status of `GetGUID` for key `k` when the item is there; `hrSetItem k` is the
status of the `SetGUID` / `SetUINT32` call that writes key `k`.  The
collection holds fewer than `2 ^ 32` elements, its count being a `DWORD`. -/
structure AudioEngine where
  hrGetAvailableTypes : HRESULT
  availableTypes : List MediaType
  hrGetElementCount : HRESULT
  hrGetElement : HRESULT
  hrQueryInterface : HRESULT
  hrCreateAttributes : HRESULT
  hrCopyAllItems : HRESULT
  hrGetGUID : AttrKey → HRESULT
  hrSetItem : AttrKey → HRESULT
  hrSetAudioAttributes : HRESULT

/-- An engine that answers every call of `ConfigureAudioOutput` with `S_OK`
and enumerates the media types `types`. -/
def AudioEngine.allOk (types : List MediaType) : AudioEngine :=
  { hrGetAvailableTypes := S_OK, availableTypes := types, hrGetElementCount := S_OK,
    hrGetElement := S_OK, hrQueryInterface := S_OK, hrCreateAttributes := S_OK,
    hrCopyAllItems := S_OK, hrGetGUID := fun _ => S_OK, hrSetItem := fun _ => S_OK,
    hrSetAudioAttributes := S_OK }

/-- Every call of `ConfigureAudioOutput` is answered with a success status. -/
def AudioEngine.AllSucceed (eng : AudioEngine) : Prop :=
  SUCCEEDED eng.hrGetAvailableTypes = true ∧ SUCCEEDED eng.hrGetElementCount = true ∧
  SUCCEEDED eng.hrGetElement = true ∧ SUCCEEDED eng.hrQueryInterface = true ∧
  SUCCEEDED eng.hrCreateAttributes = true ∧ SUCCEEDED eng.hrCopyAllItems = true ∧
  (∀ k, SUCCEEDED (eng.hrGetGUID k) = true) ∧ (∀ k, SUCCEEDED (eng.hrSetItem k) = true) ∧
  SUCCEEDED eng.hrSetAudioAttributes = true

/-- A profile to which nothing has been attached yet, as created by
`MFCreateTranscodeProfile`. -/
def TranscodeProfile.empty : TranscodeProfile :=
  { audio := none, video := none, container := none }

/-- The common opening of `ConfigureAudioOutput` in both variants: enumerate
the output types, read the element count (an empty collection becomes
`E_UNEXPECTED`), fetch element 0 and query it for `IMFMediaType`.  Returns
`hr` and the object `pAudioType` points to (the empty store while the
pointer is NULL; it is only dereferenced under `SUCCEEDED(hr)`). -/
def selectFirstType (eng : AudioEngine) : HRESULT × MediaType :=
  -- hr = MFTranscodeGetAudioOutputAvailableTypes(..., &pAvailableTypes);
  let hr := eng.hrGetAvailableTypes
  -- if (SUCCEEDED(hr)) { hr = pAvailableTypes->GetElementCount(&dwMTCount);
  --                      if (dwMTCount == 0) { hr = E_UNEXPECTED; } }
  let count : HRESULT × Nat :=
    guarded (hr, 0) (fun old => outParam eng.hrGetElementCount eng.availableTypes.length old)
  let dwMTCount := count.2
  let hr := if SUCCEEDED hr then (if dwMTCount = 0 then E_UNEXPECTED else count.1) else hr
  -- if (SUCCEEDED(hr)) { hr = pAvailableTypes->GetElement(0, &pUnkAudioType); }
  let elem : HRESULT × MediaType :=
    guarded (hr, []) (fun old => outParam eng.hrGetElement (eng.availableTypes.headD []) old)
  -- if (SUCCEEDED(hr)) { hr = pUnkAudioType->QueryInterface(IID_PPV_ARGS(&pAudioType)); }
  guarded (elem.1, []) (fun old => outParam eng.hrQueryInterface elem.2 old)

namespace TranscodeToAAC

/-- The block `if (subtype != MFAudioFormat_AAC) { ... }`: ten guarded writes
into `pAudioAttrs`, the eight numeric ones reading `pAudioType` with a
default. -/
def reconfigure (eng : AudioEngine) (pAudioType : MediaType) (s : HRESULT × Attributes) :
    HRESULT × Attributes :=
  let s := guarded s (SetGUID (eng.hrSetItem .MF_MT_MAJOR_TYPE) .MF_MT_MAJOR_TYPE
    GUID.MFMediaType_Audio)
  let s := guarded s (SetGUID (eng.hrSetItem .MF_MT_SUBTYPE) .MF_MT_SUBTYPE
    GUID.MFAudioFormat_AAC)
  let s := guarded s (SetUINT32 (eng.hrSetItem .MF_MT_AUDIO_BITS_PER_SAMPLE)
    .MF_MT_AUDIO_BITS_PER_SAMPLE
    (MFGetAttributeUINT32 pAudioType .MF_MT_AUDIO_BITS_PER_SAMPLE 16))
  let s := guarded s (SetUINT32 (eng.hrSetItem .MF_MT_AUDIO_SAMPLES_PER_SECOND)
    .MF_MT_AUDIO_SAMPLES_PER_SECOND
    (MFGetAttributeUINT32 pAudioType .MF_MT_AUDIO_SAMPLES_PER_SECOND 0))
  let s := guarded s (SetUINT32 (eng.hrSetItem .MF_MT_AUDIO_NUM_CHANNELS)
    .MF_MT_AUDIO_NUM_CHANNELS
    (MFGetAttributeUINT32 pAudioType .MF_MT_AUDIO_NUM_CHANNELS 0))
  let s := guarded s (SetUINT32 (eng.hrSetItem .MF_MT_AUDIO_AVG_BYTES_PER_SECOND)
    .MF_MT_AUDIO_AVG_BYTES_PER_SECOND
    (MFGetAttributeUINT32 pAudioType .MF_MT_AUDIO_AVG_BYTES_PER_SECOND 0))
  let s := guarded s (SetUINT32 (eng.hrSetItem .MF_MT_AAC_PAYLOAD_TYPE)
    .MF_MT_AAC_PAYLOAD_TYPE
    (MFGetAttributeUINT32 pAudioType .MF_MT_AAC_PAYLOAD_TYPE 0))
  let s := guarded s (SetUINT32 (eng.hrSetItem .MF_MT_AAC_AUDIO_PROFILE_LEVEL_INDICATION)
    .MF_MT_AAC_AUDIO_PROFILE_LEVEL_INDICATION
    (MFGetAttributeUINT32 pAudioType .MF_MT_AAC_AUDIO_PROFILE_LEVEL_INDICATION 0))
  let s := guarded s (SetUINT32 (eng.hrSetItem .MF_MT_AUDIO_BLOCK_ALIGNMENT)
    .MF_MT_AUDIO_BLOCK_ALIGNMENT
    (MFGetAttributeUINT32 pAudioType .MF_MT_AUDIO_BLOCK_ALIGNMENT 0))
  guarded s (SetUINT32 (eng.hrSetItem .MF_MT_ALL_SAMPLES_INDEPENDENT)
    .MF_MT_ALL_SAMPLES_INDEPENDENT
    (MFGetAttributeUINT32 pAudioType .MF_MT_ALL_SAMPLES_INDEPENDENT 0))

/-- The method `CTranscoder::ConfigureAudioOutput` of
`src/TranscodeToAAC/Transcode.cpp`: the returned status and the profile
afterwards. -/
def ConfigureAudioOutput (eng : AudioEngine) (m_pProfile : TranscodeProfile) :
    HRESULT × TranscodeProfile :=
  let sel := selectFirstType eng
  let pAudioType := sel.2
  -- if (SUCCEEDED(hr)) { hr = MFCreateAttributes(&pAudioAttrs, 10); }
  let attrs : HRESULT × Attributes :=
    guarded (sel.1, []) (fun old => outParam eng.hrCreateAttributes [] old)
  -- if (SUCCEEDED(hr)) { hr = pAudioType->CopyAllItems(pAudioAttrs); }
  let attrs := guarded attrs (fun old => outParam eng.hrCopyAllItems pAudioType old)
  -- GUID majortype = { 0 }; GUID subtype = { 0 };
  -- if (SUCCEEDED(hr)) { hr = pAudioType->GetGUID(MF_MT_MAJOR_TYPE, &majortype); }
  let major := guarded (attrs.1, GUID.GUID_NULL)
    (GetGUID (eng.hrGetGUID .MF_MT_MAJOR_TYPE) pAudioType .MF_MT_MAJOR_TYPE)
  -- if (majortype != MFMediaType_Audio) { return FAILED(hr); }
  if major.2 ≠ GUID.MFMediaType_Audio then (boolToHRESULT (FAILED major.1), m_pProfile)
  else
    -- if (SUCCEEDED(hr)) { hr = pAudioType->GetGUID(MF_MT_SUBTYPE, &subtype); }
    let sub := guarded (major.1, GUID.GUID_NULL)
      (GetGUID (eng.hrGetGUID .MF_MT_SUBTYPE) pAudioType .MF_MT_SUBTYPE)
    let attrs : HRESULT × Attributes :=
      if sub.2 ≠ GUID.MFAudioFormat_AAC then reconfigure eng pAudioType (sub.1, attrs.2)
      else (sub.1, attrs.2)
    -- if (SUCCEEDED(hr)) { hr = m_pProfile->SetAudioAttributes(pAudioAttrs); }
    guarded (attrs.1, m_pProfile) (SetAudioAttributes eng.hrSetAudioAttributes attrs.2)

end TranscodeToAAC

namespace TranscodeToMp4MP3

/-- The block marked `// Reconfig`: two guarded GUID writes, four guarded
reads of `pAudioType` with default 0, and four guarded UINT32 writes. -/
def reconfigure (eng : AudioEngine) (pAudioType : MediaType) (s : HRESULT × Attributes) :
    HRESULT × Attributes :=
  let s := guarded s (SetGUID (eng.hrSetItem .MF_MT_MAJOR_TYPE) .MF_MT_MAJOR_TYPE
    GUID.MFMediaType_Audio)
  let s := guarded s (SetGUID (eng.hrSetItem .MF_MT_SUBTYPE) .MF_MT_SUBTYPE
    GUID.MFAudioFormat_MP3)
  -- UINT32 sampleRate = 0, cChannels = 0, cbBlockSize = 0, cbBytesPerSecond = 0;
  let cChannels :=
    if SUCCEEDED s.1 then MFGetAttributeUINT32 pAudioType .MF_MT_AUDIO_NUM_CHANNELS 0 else 0
  let sampleRate :=
    if SUCCEEDED s.1 then MFGetAttributeUINT32 pAudioType .MF_MT_AUDIO_SAMPLES_PER_SECOND 0
    else 0
  let cbBlockSize :=
    if SUCCEEDED s.1 then MFGetAttributeUINT32 pAudioType .MF_MT_AUDIO_BLOCK_ALIGNMENT 0
    else 0
  let cbBytesPerSecond :=
    if SUCCEEDED s.1 then MFGetAttributeUINT32 pAudioType .MF_MT_AUDIO_AVG_BYTES_PER_SECOND 0
    else 0
  let s := guarded s (SetUINT32 (eng.hrSetItem .MF_MT_AUDIO_BLOCK_ALIGNMENT)
    .MF_MT_AUDIO_BLOCK_ALIGNMENT cbBlockSize)
  let s := guarded s (SetUINT32 (eng.hrSetItem .MF_MT_AUDIO_AVG_BYTES_PER_SECOND)
    .MF_MT_AUDIO_AVG_BYTES_PER_SECOND cbBytesPerSecond)
  let s := guarded s (SetUINT32 (eng.hrSetItem .MF_MT_AUDIO_NUM_CHANNELS)
    .MF_MT_AUDIO_NUM_CHANNELS cChannels)
  guarded s (SetUINT32 (eng.hrSetItem .MF_MT_AUDIO_SAMPLES_PER_SECOND)
    .MF_MT_AUDIO_SAMPLES_PER_SECOND sampleRate)

/-- The method `CTranscoder::ConfigureAudioOutput` of
`src/TranscodeToMp4-MP3/Transcode.cpp`: the returned status and the profile
afterwards. -/
def ConfigureAudioOutput (eng : AudioEngine) (m_pProfile : TranscodeProfile) :
    HRESULT × TranscodeProfile :=
  let sel := selectFirstType eng
  let pAudioType := sel.2
  -- GUID majortype = { 0 }; GUID subtype = { 0 };
  -- if (SUCCEEDED(hr)) { hr = pAudioType->GetGUID(MF_MT_MAJOR_TYPE, &majortype); }
  let major := guarded (sel.1, GUID.GUID_NULL)
    (GetGUID (eng.hrGetGUID .MF_MT_MAJOR_TYPE) pAudioType .MF_MT_MAJOR_TYPE)
  -- if (majortype != MFMediaType_Audio) { return FAILED(hr); }
  if major.2 ≠ GUID.MFMediaType_Audio then (boolToHRESULT (FAILED major.1), m_pProfile)
  else
    -- if (SUCCEEDED(hr)) { hr = pAudioType->GetGUID(MF_MT_SUBTYPE, &subtype); }
    let sub := guarded (major.1, GUID.GUID_NULL)
      (GetGUID (eng.hrGetGUID .MF_MT_SUBTYPE) pAudioType .MF_MT_SUBTYPE)
    -- if (SUCCEEDED(hr)) { hr = MFCreateAttributes(&pAudioAttrs, 6); }
    let attrs : HRESULT × Attributes :=
      guarded (sub.1, []) (fun old => outParam eng.hrCreateAttributes [] old)
    -- if (SUCCEEDED(hr)) { hr = pAudioType->CopyAllItems(pAudioAttrs); }
    let attrs := guarded attrs (fun old => outParam eng.hrCopyAllItems pAudioType old)
    let attrs := reconfigure eng pAudioType attrs
    -- if (SUCCEEDED(hr)) { hr = m_pProfile->SetAudioAttributes(pAudioAttrs); }
    guarded (attrs.1, m_pProfile) (SetAudioAttributes eng.hrSetAudioAttributes attrs.2)

/-! ## Video negotiation: `CTranscoder::ConfigureVideoOutput` -/

/-- The struct `MFRatio`. -/
structure MFRatio where
  Numerator : Nat
  Denominator : Nat
  deriving DecidableEq, Repr

/-- The struct `H264ProfileInfo`. -/
structure H264ProfileInfo where
  profile : Nat
  fps : MFRatio
  frame_size : MFRatio
  bitrate : Nat
  deriving DecidableEq, Repr

/-- The enumerator `eAVEncH264VProfile_Base`. -/
def eAVEncH264VProfile_Base : Nat := 66

/-- The enumerator `eAVEncH264VProfile_Main`. -/
def eAVEncH264VProfile_Main : Nat := 77

/-- The table `h264_profiles`. -/
def h264_profiles : List H264ProfileInfo :=
  [ { profile := eAVEncH264VProfile_Base, fps := ⟨15, 1⟩, frame_size := ⟨176, 144⟩,
      bitrate := 128000 },
    { profile := eAVEncH264VProfile_Base, fps := ⟨15, 1⟩, frame_size := ⟨352, 288⟩,
      bitrate := 384000 },
    { profile := eAVEncH264VProfile_Base, fps := ⟨30, 1⟩, frame_size := ⟨352, 288⟩,
      bitrate := 384000 },
    { profile := eAVEncH264VProfile_Base, fps := ⟨29970, 1000⟩, frame_size := ⟨320, 240⟩,
      bitrate := 528560 },
    { profile := eAVEncH264VProfile_Base, fps := ⟨15, 1⟩, frame_size := ⟨720, 576⟩,
      bitrate := 4000000 },
    { profile := eAVEncH264VProfile_Main, fps := ⟨25, 1⟩, frame_size := ⟨720, 576⟩,
      bitrate := 10000000 },
    { profile := eAVEncH264VProfile_Main, fps := ⟨30, 1⟩, frame_size := ⟨352, 288⟩,
      bitrate := 10000000 } ]

/-- What the engine answers to the calls of `ConfigureVideoOutput`. -/
structure VideoEngine where
  hrCreateAttributes : HRESULT
  hrSetItem : AttrKey → HRESULT
  hrSetVideoAttributes : HRESULT

/-- An engine that answers every call of `ConfigureVideoOutput` with `S_OK`. -/
def VideoEngine.allOk : VideoEngine :=
  { hrCreateAttributes := S_OK, hrSetItem := fun _ => S_OK, hrSetVideoAttributes := S_OK }

/-- The method `CTranscoder::ConfigureVideoOutput` of
`src/TranscodeToMp4-MP3/Transcode.cpp`: the returned status and the profile
afterwards. -/
def ConfigureVideoOutput (eng : VideoEngine) (m_pProfile : TranscodeProfile) :
    HRESULT × TranscodeProfile :=
  let preset := h264_profiles.get ⟨3, by decide⟩
  -- HRESULT hr = S_OK;  if (SUCCEEDED(hr)) { hr = MFCreateAttributes(&pVideoAttrs, 5); }
  let s : HRESULT × Attributes :=
    guarded (S_OK, []) (fun old => outParam eng.hrCreateAttributes [] old)
  let s := guarded s (SetGUID (eng.hrSetItem .MF_MT_SUBTYPE) .MF_MT_SUBTYPE
    GUID.MFVideoFormat_H264)
  let s := guarded s (SetUINT32 (eng.hrSetItem .MF_MT_MPEG2_PROFILE) .MF_MT_MPEG2_PROFILE
    preset.profile)
  -- MFSetAttributeSize(pVideoAttrs, MF_MT_FRAME_SIZE,
  --   h264_profiles[3].frame_size.Numerator, h264_profiles[3].frame_size.Numerator);
  let s := guarded s (MFSetAttributeSize (eng.hrSetItem .MF_MT_FRAME_SIZE) .MF_MT_FRAME_SIZE
    preset.frame_size.Numerator preset.frame_size.Numerator)
  let s := guarded s (MFSetAttributeRatio (eng.hrSetItem .MF_MT_FRAME_RATE) .MF_MT_FRAME_RATE
    preset.fps.Numerator preset.fps.Denominator)
  let s := guarded s (SetUINT32 (eng.hrSetItem .MF_MT_AVG_BITRATE) .MF_MT_AVG_BITRATE
    preset.bitrate)
  -- if (SUCCEEDED(hr)) { hr = m_pProfile->SetVideoAttributes(pVideoAttrs); }
  guarded (s.1, m_pProfile) (SetVideoAttributes eng.hrSetVideoAttributes s.2)

end TranscodeToMp4MP3

/-! ## Container negotiation: `CTranscoder::ConfigureContainer` -/

/-- The enumerator `MF_TRANSCODE_ADJUST_PROFILE_DEFAULT` of `mfidl.h`
(`MF_TRANSCODE_ADJUST_PROFILE_FLAGS`), declared outside the repository. -/
def MF_TRANSCODE_ADJUST_PROFILE_DEFAULT : Nat := 0

/-- The call `m_pProfile->SetContainerAttributes(pAttrs)` answered with `hrCall`. -/
def SetContainerAttributes (hrCall : HRESULT) (pAttrs : Attributes) (p : TranscodeProfile) :
    HRESULT × TranscodeProfile :=
  outParam hrCall { p with container := some pAttrs } p

/-- What the engine answers to the calls of `ConfigureContainer`. -/
structure ContainerEngine where
  hrCreateAttributes : HRESULT
  hrSetItem : AttrKey → HRESULT
  hrSetContainerAttributes : HRESULT

/-- An engine that answers every call of `ConfigureContainer` with `S_OK`. -/
def ContainerEngine.allOk : ContainerEngine :=
  { hrCreateAttributes := S_OK, hrSetItem := fun _ => S_OK, hrSetContainerAttributes := S_OK }

namespace TranscodeToAAC

/-- The method `CTranscoder::ConfigureContainer` of
`src/TranscodeToAAC/Transcode.cpp`: the returned status and the profile
afterwards. -/
def ConfigureContainer (eng : ContainerEngine) (m_pProfile : TranscodeProfile) :
    HRESULT × TranscodeProfile :=
  -- hr = MFCreateAttributes(&pContainerAttrs, 1);
  let s : HRESULT × Attributes := outParam eng.hrCreateAttributes [] []
  let s := guarded s (SetGUID (eng.hrSetItem .MF_TRANSCODE_CONTAINERTYPE)
    .MF_TRANSCODE_CONTAINERTYPE GUID.MFTranscodeContainerType_ADTS)
  let s := guarded s (SetUINT32 (eng.hrSetItem .MF_TRANSCODE_ADJUST_PROFILE)
    .MF_TRANSCODE_ADJUST_PROFILE MF_TRANSCODE_ADJUST_PROFILE_DEFAULT)
  -- if (SUCCEEDED(hr)) { hr = m_pProfile->SetContainerAttributes(pContainerAttrs); }
  guarded (s.1, m_pProfile) (SetContainerAttributes eng.hrSetContainerAttributes s.2)

end TranscodeToAAC

namespace TranscodeToMp4MP3

/-- The method `CTranscoder::ConfigureContainer` of
`src/TranscodeToMp4-MP3/Transcode.cpp`: the returned status and the profile
afterwards. -/
def ConfigureContainer (eng : ContainerEngine) (m_pProfile : TranscodeProfile) :
    HRESULT × TranscodeProfile :=
  -- hr = MFCreateAttributes(&pContainerAttrs, 2);
  let s : HRESULT × Attributes := outParam eng.hrCreateAttributes [] []
  let s := guarded s (SetGUID (eng.hrSetItem .MF_TRANSCODE_CONTAINERTYPE)
    .MF_TRANSCODE_CONTAINERTYPE GUID.MFTranscodeContainerType_MPEG4)
  let s := guarded s (SetUINT32 (eng.hrSetItem .MF_TRANSCODE_ADJUST_PROFILE)
    .MF_TRANSCODE_ADJUST_PROFILE MF_TRANSCODE_ADJUST_PROFILE_DEFAULT)
  -- if (SUCCEEDED(hr)) { hr = m_pProfile->SetContainerAttributes(pContainerAttrs); }
  guarded (s.1, m_pProfile) (SetContainerAttributes eng.hrSetContainerAttributes s.2)

end TranscodeToMp4MP3

/-! ## Teardown: `CTranscoder::Shutdown` -/

/-- A shutdown call made by `Shutdown`. -/
inductive ShutdownCall where
  | SourceShutdown
  | SessionShutdown
  deriving DecidableEq, Repr

/-- The method `CTranscoder::Shutdown` (identical in both variants).
`m_pSource` and `m_pSession` are `none` for a NULL pointer and otherwise hold
the status the object returns from its `Shutdown`.  Returns the status and
the shutdown calls made, in order. -/
def Shutdown (m_pSource m_pSession : Option HRESULT) : HRESULT × List ShutdownCall :=
  -- HRESULT hr = S_OK;  if (m_pSource) { hr = m_pSource->Shutdown(); }
  let s1 : HRESULT × List ShutdownCall :=
    match m_pSource with
    | some hrSource => (hrSource, [ShutdownCall.SourceShutdown])
    | none => (S_OK, [])
  -- if (SUCCEEDED(hr)) { if (m_pSession) { hr = m_pSession->Shutdown(); } }
  if SUCCEEDED s1.1 then
    match m_pSession with
    | some hrSession => (hrSession, s1.2 ++ [ShutdownCall.SessionShutdown])
    | none => s1
  else s1

/-! ## Observations on a run of the driver -/

/-- The command the `switch (meType)` issues for an event of type `t`. -/
def commandIssued : MediaEventType → Option SessionCommand
  | .MESessionTopologySet => some SessionCommand.Start
  | .MESessionEnded => some SessionCommand.Close
  | _ => none

/-- The event passes the four checks that precede the `switch`: it was
fetched, its type and its status were read, and its status is a success. -/
def reachesSwitch (e : SessionEvent) : Bool :=
  SUCCEEDED e.hrGetEvent && SUCCEEDED e.hrGetType && SUCCEEDED e.hrGetStatus &&
    SUCCEEDED e.hrStatus

/-- The loop is left once the event `e` has been pulled: one of the `break`s
of the body is taken (the fetch, the type read or the status read fails, the
status is a failure, or the `Start` or `Close` issued for the event fails), or
the loop condition `meType != MESessionClosed` fails after the pass. -/
def leavesLoop (e : SessionEvent) : Bool :=
  FAILED e.hrGetEvent || FAILED e.hrGetType || FAILED e.hrGetStatus || FAILED e.hrStatus ||
    (decide (e.meType = MediaEventType.MESessionTopologySet) && FAILED e.hrCommand) ||
    (decide (e.meType = MediaEventType.MESessionEnded) && FAILED e.hrCommand) ||
    decide (e.meType = MediaEventType.MESessionClosed)

/-- The events of `evs` that reach the loop: those up to and including the
first one after which the loop is left (all of them when there is none). -/
def pulledEvents (evs : List SessionEvent) : List SessionEvent :=
  evs.take ((evs.takeWhile (fun e => !leavesLoop e)).length + 1)

/-- The events of `evs` that are handled: those of the pulled events that
reach the `switch`. -/
def handledEvents (evs : List SessionEvent) : List SessionEvent :=
  (pulledEvents evs).filter reachesSwitch

/-- The value of the loop variable `meType` at the `switch`, for each pass of
the `while` loop that reaches the `switch`, in order.  The recursion is that
of `transcodeLoop`; the `switch` does not assign `meType`, so its value after
the pass is its value at the `switch`. -/
def switchTrace (s : TranscodeState) : List SessionEvent → List MediaEventType
  | [] => []
  | e :: rest =>
      if s.meType = MediaEventType.MESessionClosed then []
      else
        let r := loopBody s e
        (if reachesSwitch e then [r.2.meType] else []) ++
          (if r.1 then [] else switchTrace r.2 rest)

/-- The session states of the specification (section 3, `Session`). -/
inductive SessionState where
  | Unbound
  | TopologySet
  | Started
  | Ended
  | Closed
  deriving DecidableEq, Repr

/-- The position of a state in the specification's state list
`Unbound, TopologySet, Started, Ended, Closed`. -/
def SessionState.rank : SessionState → Nat
  | .Unbound => 0
  | .TopologySet => 1
  | .Started => 2
  | .Ended => 3
  | .Closed => 4

/-- The state that the specification's transition table (section 4.4) enters
on an event of type `t`; `none` for an event type that is no transition. -/
def stateEntered : MediaEventType → Option SessionState
  | .MESessionTopologySet => some SessionState.TopologySet
  | .MESessionStarted => some SessionState.Started
  | .MESessionEnded => some SessionState.Ended
  | .MESessionClosed => some SessionState.Closed
  | _ => none

/-- The observed state sequence of a run of `Transcode`: `Unbound`, then, for
each pass of the loop that reaches the `switch`, the state that the
specification's table names for the event type the loop holds there. -/
def observedStates (evs : List SessionEvent) : List SessionState :=
  SessionState.Unbound :: (switchTrace transcodeInit evs).filterMap stateEntered

/-! ## Facts about status codes -/

theorem FAILED_eq_not_SUCCEEDED (hr : HRESULT) : FAILED hr = !SUCCEEDED hr := by
  unfold FAILED SUCCEEDED
  by_cases h : (hr : Int) < 0
  · have h2 : ¬ (0 : Int) ≤ hr := not_le.mpr h
    simp [h, h2]
  · have h2 : (0 : Int) ≤ hr := not_lt.mp h
    simp [h, h2]

theorem FAILED_of_SUCCEEDED {hr : HRESULT} (h : SUCCEEDED hr = true) : FAILED hr = false := by
  rw [FAILED_eq_not_SUCCEEDED, h]; rfl

theorem SUCCEEDED_of_FAILED {hr : HRESULT} (h : FAILED hr = true) : SUCCEEDED hr = false := by
  rw [FAILED_eq_not_SUCCEEDED] at h; simpa using h

theorem SUCCEEDED_of_not_FAILED {hr : HRESULT} (h : FAILED hr = false) : SUCCEEDED hr = true := by
  rw [FAILED_eq_not_SUCCEEDED] at h; simpa using h

theorem SUCCEEDED_eq_not_FAILED (hr : HRESULT) : SUCCEEDED hr = !FAILED hr := by
  rw [FAILED_eq_not_SUCCEEDED]; simp

theorem FAILED_negSucc (n : Nat) : FAILED (Int.negSucc n) = true := by
  simp [FAILED, Int.negSucc_lt_zero]

/-! ## Facts about the session driver -/

theorem transcodeLoop_running_meType (s s' : TranscodeState) (pre : List SessionEvent)
    (h : transcodeLoop s pre = (false, s')) :
    s'.meType ≠ MediaEventType.MESessionClosed := by
  induction pre generalizing s with
  | nil =>
    simp only [transcodeLoop, Prod.mk.injEq, decide_eq_false_iff_not] at h
    rw [← h.2]; exact h.1
  | cons e pre ih =>
    simp only [transcodeLoop] at h
    split at h
    · simp at h
    · split at h
      · simp at h
      · exact ih _ h

theorem transcodeLoop_running_pulled (s s' : TranscodeState) (pre : List SessionEvent)
    (h : transcodeLoop s pre = (false, s')) :
    s'.pulled = s.pulled + pre.length := by
  induction pre generalizing s with
  | nil =>
    simp only [transcodeLoop, Prod.mk.injEq] at h
    rw [← h.2]; simp
  | cons e pre ih =>
    simp only [transcodeLoop] at h
    split at h
    · simp at h
    · split at h
      · simp at h
      · have h1 := ih _ h
        have h2 : (loopBody s e).2.pulled = s.pulled + 1 := by
          unfold loopBody dispatch
          simp only []
          repeat' split
          all_goals rfl
        rw [h1, h2, List.length_cons]; omega

theorem transcodeLoop_append (s s' : TranscodeState) (pre rest : List SessionEvent)
    (h : transcodeLoop s pre = (false, s')) :
    transcodeLoop s (pre ++ rest) = transcodeLoop s' rest := by
  induction pre generalizing s with
  | nil =>
    simp only [transcodeLoop, Prod.mk.injEq] at h
    rw [← h.2]; rfl
  | cons e pre ih =>
    simp only [transcodeLoop] at h
    split at h
    · simp at h
    · rename_i hne
      split at h
      · simp at h
      · rename_i hb
        simp only [List.cons_append, transcodeLoop, hne, if_false, hb]
        exact ih _ h

theorem Transcode_result_none_iff (evs : List SessionEvent) :
    (Transcode evs).result = none ↔ (transcodeLoop transcodeInit evs).1 = false := by
  unfold Transcode
  cases h : (transcodeLoop transcodeInit evs).1 <;> simp [h]

/-- C1 (fail-fast override): when the loop is still running after the events
`pre` and the next event is delivered with any type and a failure status `s`,
`Transcode` returns exactly `s`, having pulled that event and nothing after
it, and the commands issued are those issued for `pre`: none for the failed
event. -/
theorem Transcode_fail_fast (pre post : List SessionEvent) (e : SessionEvent)
    (hrun : (Transcode pre).result = none)
    (hget : SUCCEEDED e.hrGetEvent = true) (htype : SUCCEEDED e.hrGetType = true)
    (hstat : SUCCEEDED e.hrGetStatus = true) (hfail : FAILED e.hrStatus = true) :
    Transcode (pre ++ e :: post) =
      { result := some e.hrStatus, commands := (Transcode pre).commands,
        pulled := pre.length + 1 } := by
  rw [Transcode_result_none_iff] at hrun
  rcases hpre : transcodeLoop transcodeInit pre with ⟨b, s'⟩
  simp only [hpre] at hrun
  subst hrun
  have hne := transcodeLoop_running_meType _ _ _ hpre
  have hp := transcodeLoop_running_pulled _ _ _ hpre
  have happ := transcodeLoop_append _ _ pre (e :: post) hpre
  have hg := FAILED_of_SUCCEEDED hget
  have ht := FAILED_of_SUCCEEDED htype
  have hs := FAILED_of_SUCCEEDED hstat
  have hp0 : s'.pulled = pre.length := by rw [hp]; simp [transcodeInit]
  unfold Transcode
  rw [happ, hpre]
  simp [transcodeLoop, hne, loopBody, hg, ht, hs, hstat, hfail, hp0]

/-- E2E scenario C as an instance of C1: after `TopologySet(ok), Started(ok)`
the event `Ended(fail = 0x8007000E)` makes `Transcode` return `0x8007000E`,
and the only command ever issued is the `Start` of the first event. -/
theorem Transcode_fail_fast_witness :
    (Transcode [mkEvent .MESessionTopologySet S_OK S_OK,
        mkEvent .MESessionStarted S_OK S_OK]).result = none ∧
    FAILED (HRESULT_FROM_BITS 0x8007000E) = true ∧
    Transcode ([mkEvent .MESessionTopologySet S_OK S_OK, mkEvent .MESessionStarted S_OK S_OK]
        ++ mkEvent .MESessionEnded (HRESULT_FROM_BITS 0x8007000E) S_OK :: []) =
      { result := some (HRESULT_FROM_BITS 0x8007000E), commands := [SessionCommand.Start],
        pulled := 3 } :=
  ⟨by decide, by decide,
    Transcode_fail_fast
      [mkEvent .MESessionTopologySet S_OK S_OK, mkEvent .MESessionStarted S_OK S_OK] []
      (mkEvent .MESessionEnded (HRESULT_FROM_BITS 0x8007000E) S_OK)
      (by decide) (by decide) (by decide) (by decide) (by decide)⟩


theorem transcodeLoop_closed (s : TranscodeState) (evs : List SessionEvent)
    (h : s.meType = MediaEventType.MESessionClosed) : transcodeLoop s evs = (true, s) := by
  cases evs <;> simp [transcodeLoop, h]

theorem loopBody_break_failed (s : TranscodeState) (e : SessionEvent)
    (h : (loopBody s e).1 = true) : FAILED (loopBody s e).2.hr = true := by
  revert h
  unfold loopBody
  simp only []
  repeat' split
  all_goals simp_all

theorem loopBody_continue (s : TranscodeState) (e : SessionEvent)
    (h : (loopBody s e).1 = false) :
    (SUCCEEDED e.hrGetEvent = true ∧ SUCCEEDED e.hrGetType = true ∧
      SUCCEEDED e.hrGetStatus = true ∧ SUCCEEDED e.hrStatus = true ∧
      (e.meType = MediaEventType.MESessionTopologySet ∨
        e.meType = MediaEventType.MESessionEnded → SUCCEEDED e.hrCommand = true)) ∧
    (loopBody s e).2.meType = e.meType ∧ SUCCEEDED (loopBody s e).2.hr = true := by
  revert h
  unfold loopBody dispatch Start
  simp only [SUCCEEDED_eq_not_FAILED]
  cases h1 : FAILED e.hrGetEvent <;> cases h2 : FAILED e.hrGetType <;>
    cases h3 : FAILED e.hrGetStatus <;> cases h4 : FAILED e.hrStatus <;>
    cases h5 : FAILED e.hrCommand <;> cases h6 : e.meType <;> simp [h1, h2, h3, h4, h5]

theorem loopBody_of_noFailure (s : TranscodeState) (e : SessionEvent)
    (h1 : SUCCEEDED e.hrGetEvent = true) (h2 : SUCCEEDED e.hrGetType = true)
    (h3 : SUCCEEDED e.hrGetStatus = true) (h4 : SUCCEEDED e.hrStatus = true)
    (h5 : e.meType = MediaEventType.MESessionTopologySet ∨
        e.meType = MediaEventType.MESessionEnded → SUCCEEDED e.hrCommand = true) :
    (loopBody s e).1 = false := by
  revert h1 h2 h3 h4 h5
  unfold loopBody dispatch Start
  simp only [SUCCEEDED_eq_not_FAILED]
  cases h1 : FAILED e.hrGetEvent <;> cases h2 : FAILED e.hrGetType <;>
    cases h3 : FAILED e.hrGetStatus <;> cases h4 : FAILED e.hrStatus <;>
    cases h5 : FAILED e.hrCommand <;> cases h6 : e.meType <;> simp [h1, h2, h3, h4, h5]


theorem loopBody_pulled (s : TranscodeState) (e : SessionEvent) :
    (loopBody s e).2.pulled = s.pulled + 1 := by
  unfold loopBody dispatch
  simp only []
  repeat' split
  all_goals rfl

theorem transcodeLoop_success_forward (evs : List SessionEvent) :
    ∀ (s s' : TranscodeState), s.meType ≠ MediaEventType.MESessionClosed →
      transcodeLoop s evs = (true, s') → SUCCEEDED s'.hr = true →
      ∃ pre e post, evs = pre ++ e :: post ∧ s'.pulled = s.pulled + (pre.length + 1) ∧
        (SUCCEEDED e.hrGetEvent = true ∧ SUCCEEDED e.hrGetType = true ∧
          SUCCEEDED e.hrGetStatus = true ∧ e.meType = MediaEventType.MESessionClosed ∧
          SUCCEEDED e.hrStatus = true) ∧
        ∀ x ∈ pre, SUCCEEDED x.hrGetEvent = true ∧ SUCCEEDED x.hrGetType = true ∧
          SUCCEEDED x.hrGetStatus = true ∧ SUCCEEDED x.hrStatus = true ∧
          (x.meType = MediaEventType.MESessionTopologySet ∨
            x.meType = MediaEventType.MESessionEnded → SUCCEEDED x.hrCommand = true) := by
  induction evs with
  | nil =>
    intro s s' hne h _
    simp [transcodeLoop, hne] at h
  | cons e rest ih =>
    intro s s' hne h hs
    simp only [transcodeLoop, hne, if_false] at h
    cases hb : (loopBody s e).1 with
    | true =>
      simp only [hb, if_true, Prod.mk.injEq, true_and] at h
      have hf := loopBody_break_failed s e hb
      rw [h] at hf
      rw [SUCCEEDED_of_FAILED hf] at hs
      exact absurd hs (by simp)
    | false =>
      simp only [hb, Bool.false_eq_true, if_false] at h
      obtain ⟨hok, hty, hsucc⟩ := loopBody_continue s e hb
      have hpl := loopBody_pulled s e
      by_cases hc : (loopBody s e).2.meType = MediaEventType.MESessionClosed
      · rw [transcodeLoop_closed _ _ hc] at h
        simp only [Prod.mk.injEq, true_and] at h
        refine ⟨[], e, rest, rfl, ?_, ⟨hok.1, hok.2.1, hok.2.2.1, ?_, hok.2.2.2.1⟩, ?_⟩
        · rw [← h, hpl]; simp
        · rw [← hty]; exact hc
        · intro x hx; simp at hx
      · obtain ⟨pre, c, post, heq, hp, hcl, hpre⟩ := ih _ _ hc h hs
        refine ⟨e :: pre, c, post, ?_, ?_, hcl, ?_⟩
        · rw [heq]; rfl
        · rw [hp, hpl]; simp; omega
        · intro x hx
          rcases List.mem_cons.mp hx with rfl | hx
          · exact hok
          · exact hpre x hx

theorem transcodeLoop_success_backward (pre : List SessionEvent) :
    ∀ (s : TranscodeState) (e : SessionEvent) (post : List SessionEvent),
      s.meType ≠ MediaEventType.MESessionClosed →
      (SUCCEEDED e.hrGetEvent = true ∧ SUCCEEDED e.hrGetType = true ∧
          SUCCEEDED e.hrGetStatus = true ∧ e.meType = MediaEventType.MESessionClosed ∧
          SUCCEEDED e.hrStatus = true) →
      (∀ x ∈ pre, SUCCEEDED x.hrGetEvent = true ∧ SUCCEEDED x.hrGetType = true ∧
          SUCCEEDED x.hrGetStatus = true ∧ SUCCEEDED x.hrStatus = true ∧
          (x.meType = MediaEventType.MESessionTopologySet ∨
            x.meType = MediaEventType.MESessionEnded → SUCCEEDED x.hrCommand = true)) →
      ∃ s', transcodeLoop s (pre ++ e :: post) = (true, s') ∧ SUCCEEDED s'.hr = true := by
  induction pre with
  | nil =>
    intro s e post hne hcl _
    have hb : (loopBody s e).1 = false :=
      loopBody_of_noFailure s e hcl.1 hcl.2.1 hcl.2.2.1 hcl.2.2.2.2 (by
        intro h; rcases h with h | h <;> rw [hcl.2.2.2.1] at h <;> cases h)
    obtain ⟨_, hty, hsucc⟩ := loopBody_continue s e hb
    refine ⟨(loopBody s e).2, ?_, hsucc⟩
    simp only [List.nil_append, transcodeLoop, hne, if_false, hb]
    exact transcodeLoop_closed _ _ (by rw [hty]; exact hcl.2.2.2.1)
  | cons x pre ih =>
    intro s e post hne hcl hpre
    have hx := hpre x (List.mem_cons_self _ _)
    have hb : (loopBody s x).1 = false :=
      loopBody_of_noFailure s x hx.1 hx.2.1 hx.2.2.1 hx.2.2.2.1 hx.2.2.2.2
    obtain ⟨_, hty, hsucc⟩ := loopBody_continue s x hb
    simp only [List.cons_append, transcodeLoop, hne, if_false, hb]
    by_cases hc : (loopBody s x).2.meType = MediaEventType.MESessionClosed
    · exact ⟨_, transcodeLoop_closed _ _ hc, hsucc⟩
    · exact ih _ e post hc hcl (fun y hy => hpre y (List.mem_cons_of_mem _ hy))

/-- C2 (single successful exit): `Transcode` returns a success code exactly
when the last event it pulled is a `MESessionClosed` event that was fetched
and read without failure and carries a success status, and every event
before it was fetched and read without failure, carried a success status,
and had its `Start` or `Close` command (if it is a `TopologySet` or `Ended`
event) succeed.  As `FAILED` is the negation of `SUCCEEDED`, every other
return is a failure code. -/
theorem Transcode_success_iff (evs : List SessionEvent) :
    (∃ hr, (Transcode evs).result = some hr ∧ SUCCEEDED hr = true) ↔
      ∃ pre e post, evs = pre ++ e :: post ∧ (Transcode evs).pulled = pre.length + 1 ∧
        (SUCCEEDED e.hrGetEvent = true ∧ SUCCEEDED e.hrGetType = true ∧
          SUCCEEDED e.hrGetStatus = true ∧ e.meType = MediaEventType.MESessionClosed ∧
          SUCCEEDED e.hrStatus = true) ∧
        ∀ x ∈ pre, SUCCEEDED x.hrGetEvent = true ∧ SUCCEEDED x.hrGetType = true ∧
          SUCCEEDED x.hrGetStatus = true ∧ SUCCEEDED x.hrStatus = true ∧
          (x.meType = MediaEventType.MESessionTopologySet ∨
            x.meType = MediaEventType.MESessionEnded → SUCCEEDED x.hrCommand = true) := by
  have hinit : transcodeInit.meType ≠ MediaEventType.MESessionClosed := by decide
  constructor
  · rintro ⟨hr, hres, hs⟩
    unfold Transcode at hres
    cases hb : (transcodeLoop transcodeInit evs).1 with
    | false => simp [hb] at hres
    | true =>
      simp only [hb, if_true, Option.some.injEq] at hres
      have hloop : transcodeLoop transcodeInit evs =
          (true, (transcodeLoop transcodeInit evs).2) := by
        rw [← hb]
      rw [← hres] at hs
      obtain ⟨pre, e, post, heq, hp, hcl, hpre⟩ :=
        transcodeLoop_success_forward evs _ _ hinit hloop hs
      refine ⟨pre, e, post, heq, ?_, hcl, hpre⟩
      simp only [Transcode, hp]
      simp [transcodeInit]
  · rintro ⟨pre, e, post, heq, _, hcl, hpre⟩
    obtain ⟨s', hloop, hs⟩ := transcodeLoop_success_backward pre _ e post hinit hcl hpre
    refine ⟨s'.hr, ?_, hs⟩
    simp [Transcode, heq, hloop]

/-! ## Facts about attribute stores -/

theorem GetItem_SetItem (a : Attributes) (k k' : AttrKey) (v : AttrValue) :
    GetItem (SetItem a k v) k' = if k = k' then some v else GetItem a k' := by
  induction a with
  | nil => simp [SetItem, GetItem]
  | cons p rest ih =>
    obtain ⟨k0, v0⟩ := p
    by_cases h0 : k0 = k
    · subst h0
      by_cases h1 : k0 = k' <;> simp [SetItem, GetItem, h1]
    · by_cases h1 : k0 = k'
      · subst h1
        have h2 : ¬ k = k0 := fun h => h0 h.symm
        simp [SetItem, GetItem, h0, h2]
      · simp [SetItem, GetItem, h0, h1, ih]

theorem AllSucceed_allOk (types : List MediaType) : (AudioEngine.allOk types).AllSucceed :=
  ⟨rfl, rfl, rfl, rfl, rfl, rfl, fun _ => rfl, fun _ => rfl, rfl⟩

/-! ## Facts about audio negotiation -/

theorem selectFirstType_of_succeed (eng : AudioEngine) (c : MediaType) (rest : List MediaType)
    (htypes : eng.availableTypes = c :: rest) (hok : eng.AllSucceed) :
    selectFirstType eng = (eng.hrQueryInterface, c) := by
  obtain ⟨h1, h2, h3, h4, -⟩ := hok
  simp [selectFirstType, guarded, outParam, htypes, h1, h2, h3, h4]

/-- C6 (exact-match passthrough, AAC variant): when candidate 0 has major type
audio and subtype AAC and every engine call succeeds, `ConfigureAudioOutput`
attaches to the profile a store whose items are exactly those of candidate 0,
and returns the status of `SetAudioAttributes`. -/
theorem AAC_exact_match_passthrough (eng : AudioEngine) (m_pProfile : TranscodeProfile)
    (c : MediaType) (rest : List MediaType)
    (htypes : eng.availableTypes = c :: rest) (hok : eng.AllSucceed)
    (hmajor : GetItem c .MF_MT_MAJOR_TYPE = some (.guid .MFMediaType_Audio))
    (hsub : GetItem c .MF_MT_SUBTYPE = some (.guid .MFAudioFormat_AAC)) :
    TranscodeToAAC.ConfigureAudioOutput eng m_pProfile =
      (eng.hrSetAudioAttributes, { m_pProfile with audio := some c }) := by
  have hsel := selectFirstType_of_succeed eng c rest htypes hok
  obtain ⟨-, -, -, h4, h5, h6, h7, -, h9⟩ := hok
  simp [TranscodeToAAC.ConfigureAudioOutput, hsel, guarded, outParam, GetGUID, hmajor, hsub,
    h4, h5, h6, h7, h9, SetAudioAttributes]


/-- An instance of C6: two candidates, candidate 0 an AAC audio type carrying a
sample rate, every engine call answered with `S_OK`. -/
theorem AAC_exact_match_passthrough_witness :
    TranscodeToAAC.ConfigureAudioOutput
        (AudioEngine.allOk
          [[(.MF_MT_MAJOR_TYPE, .guid .MFMediaType_Audio),
            (.MF_MT_SUBTYPE, .guid .MFAudioFormat_AAC),
            (.MF_MT_AUDIO_SAMPLES_PER_SECOND, .uint32 44100)],
           [(.MF_MT_MAJOR_TYPE, .guid .MFMediaType_Audio),
            (.MF_MT_SUBTYPE, .guid .MFAudioFormat_MP3)]])
        TranscodeProfile.empty =
      (S_OK, { TranscodeProfile.empty with
        audio := some [(.MF_MT_MAJOR_TYPE, .guid .MFMediaType_Audio),
            (.MF_MT_SUBTYPE, .guid .MFAudioFormat_AAC),
            (.MF_MT_AUDIO_SAMPLES_PER_SECOND, .uint32 44100)] }) :=
  AAC_exact_match_passthrough _ _ _ _ rfl (AllSucceed_allOk _) rfl rfl

theorem selectFirstType_enumeration_failed (eng : AudioEngine)
    (h : FAILED eng.hrGetAvailableTypes = true) :
    selectFirstType eng = (eng.hrGetAvailableTypes, []) := by
  have hs := SUCCEEDED_of_FAILED h
  simp [selectFirstType, guarded, hs]

theorem selectFirstType_empty (eng : AudioEngine)
    (h : SUCCEEDED eng.hrGetAvailableTypes = true) (hempty : eng.availableTypes = []) :
    selectFirstType eng = (E_UNEXPECTED, []) := by
  have hu : SUCCEEDED E_UNEXPECTED = false := by decide
  simp [selectFirstType, guarded, outParam, h, hempty, hu]

/-- C3 (empty enumeration), evaluated on the code: when the enumeration
succeeds with `S_OK` and the collection is empty, both variants return
`S_FALSE` (the value of `FAILED(hr)` converted to `HRESULT`), which is a
success code and not `E_UNEXPECTED`; the profile is unchanged. -/
theorem ConfigureAudioOutput_empty_enumeration_returns_S_FALSE
    (eng : AudioEngine) (m_pProfile : TranscodeProfile) :
    TranscodeToAAC.ConfigureAudioOutput
        { eng with hrGetAvailableTypes := S_OK, availableTypes := [] } m_pProfile
      = (S_FALSE, m_pProfile) ∧
    TranscodeToMp4MP3.ConfigureAudioOutput
        { eng with hrGetAvailableTypes := S_OK, availableTypes := [] } m_pProfile
      = (S_FALSE, m_pProfile) ∧
    FAILED S_FALSE = false ∧ S_FALSE ≠ E_UNEXPECTED := by
  have hu : SUCCEEDED E_UNEXPECTED = false := by decide
  have hf : FAILED E_UNEXPECTED = true := by decide
  have hsel := selectFirstType_empty
    { eng with hrGetAvailableTypes := S_OK, availableTypes := [] } rfl rfl
  refine ⟨?_, ?_, by decide, by decide⟩
  · simp [TranscodeToAAC.ConfigureAudioOutput, hsel, guarded, hu, hf, boolToHRESULT, S_FALSE]
  · simp [TranscodeToMp4MP3.ConfigureAudioOutput, hsel, guarded, hu, hf, boolToHRESULT,
      S_FALSE]

/-- C4 (unexpected major type), evaluated on the code: when candidate 0 is a
video type and every engine call is answered with `S_OK`, both variants
return `S_OK`, a success code; the profile is unchanged. -/
theorem ConfigureAudioOutput_non_audio_major_returns_S_OK (m_pProfile : TranscodeProfile) :
    TranscodeToAAC.ConfigureAudioOutput
        (AudioEngine.allOk [[(.MF_MT_MAJOR_TYPE, .guid .MFMediaType_Video),
          (.MF_MT_SUBTYPE, .guid .MFVideoFormat_H264)]]) m_pProfile
      = (S_OK, m_pProfile) ∧
    TranscodeToMp4MP3.ConfigureAudioOutput
        (AudioEngine.allOk [[(.MF_MT_MAJOR_TYPE, .guid .MFMediaType_Video),
          (.MF_MT_SUBTYPE, .guid .MFVideoFormat_H264)]]) m_pProfile
      = (S_OK, m_pProfile) ∧
    FAILED S_OK = false :=
  ⟨rfl, rfl, rfl⟩

/-- C5 (first failure returned untouched), evaluated on the code: when the
format enumeration itself fails, with any failure code `-(n + 1)`, both
variants return `S_FALSE` instead of that code, whatever the other engine
calls would answer. -/
theorem ConfigureAudioOutput_enumeration_failure_returns_S_FALSE
    (eng : AudioEngine) (m_pProfile : TranscodeProfile) (n : Nat) :
    FAILED (Int.negSucc n) = true ∧
    TranscodeToAAC.ConfigureAudioOutput
        { eng with hrGetAvailableTypes := Int.negSucc n } m_pProfile
      = (S_FALSE, m_pProfile) ∧
    TranscodeToMp4MP3.ConfigureAudioOutput
        { eng with hrGetAvailableTypes := Int.negSucc n } m_pProfile
      = (S_FALSE, m_pProfile) ∧
    S_FALSE ≠ Int.negSucc n ∧ FAILED S_FALSE = false := by
  have hf := FAILED_negSucc n
  have hs := SUCCEEDED_of_FAILED hf
  have hsel := selectFirstType_enumeration_failed
    { eng with hrGetAvailableTypes := Int.negSucc n } hf
  refine ⟨hf, ?_, ?_, ?_, by decide⟩
  · simp [TranscodeToAAC.ConfigureAudioOutput, hsel, guarded, hs, hf, boolToHRESULT, S_FALSE]
  · simp [TranscodeToMp4MP3.ConfigureAudioOutput, hsel, guarded, hs, hf, boolToHRESULT,
      S_FALSE]
  · intro h
    have : FAILED S_FALSE = true := by rw [h]; exact hf
    exact absurd this (by decide)

theorem AAC_reconfigure_of_succeed (eng : AudioEngine) (pAudioType a : Attributes)
    (hr : HRESULT) (hhr : SUCCEEDED hr = true) (hset : ∀ k, SUCCEEDED (eng.hrSetItem k) = true) :
    TranscodeToAAC.reconfigure eng pAudioType (hr, a) =
      (eng.hrSetItem .MF_MT_ALL_SAMPLES_INDEPENDENT,
        SetItem (SetItem (SetItem (SetItem (SetItem (SetItem (SetItem (SetItem (SetItem (SetItem a
          .MF_MT_MAJOR_TYPE (.guid .MFMediaType_Audio))
          .MF_MT_SUBTYPE (.guid .MFAudioFormat_AAC))
          .MF_MT_AUDIO_BITS_PER_SAMPLE
            (.uint32 (MFGetAttributeUINT32 pAudioType .MF_MT_AUDIO_BITS_PER_SAMPLE 16)))
          .MF_MT_AUDIO_SAMPLES_PER_SECOND
            (.uint32 (MFGetAttributeUINT32 pAudioType .MF_MT_AUDIO_SAMPLES_PER_SECOND 0)))
          .MF_MT_AUDIO_NUM_CHANNELS
            (.uint32 (MFGetAttributeUINT32 pAudioType .MF_MT_AUDIO_NUM_CHANNELS 0)))
          .MF_MT_AUDIO_AVG_BYTES_PER_SECOND
            (.uint32 (MFGetAttributeUINT32 pAudioType .MF_MT_AUDIO_AVG_BYTES_PER_SECOND 0)))
          .MF_MT_AAC_PAYLOAD_TYPE
            (.uint32 (MFGetAttributeUINT32 pAudioType .MF_MT_AAC_PAYLOAD_TYPE 0)))
          .MF_MT_AAC_AUDIO_PROFILE_LEVEL_INDICATION
            (.uint32 (MFGetAttributeUINT32 pAudioType
              .MF_MT_AAC_AUDIO_PROFILE_LEVEL_INDICATION 0)))
          .MF_MT_AUDIO_BLOCK_ALIGNMENT
            (.uint32 (MFGetAttributeUINT32 pAudioType .MF_MT_AUDIO_BLOCK_ALIGNMENT 0)))
          .MF_MT_ALL_SAMPLES_INDEPENDENT
            (.uint32 (MFGetAttributeUINT32 pAudioType .MF_MT_ALL_SAMPLES_INDEPENDENT 0))) := by
  simp [TranscodeToAAC.reconfigure, guarded, outParam, SetGUID, SetUINT32, hhr, hset]

theorem MP3_reconfigure_of_succeed (eng : AudioEngine) (pAudioType a : Attributes)
    (hr : HRESULT) (hhr : SUCCEEDED hr = true) (hset : ∀ k, SUCCEEDED (eng.hrSetItem k) = true) :
    TranscodeToMp4MP3.reconfigure eng pAudioType (hr, a) =
      (eng.hrSetItem .MF_MT_AUDIO_SAMPLES_PER_SECOND,
        SetItem (SetItem (SetItem (SetItem (SetItem (SetItem a
          .MF_MT_MAJOR_TYPE (.guid .MFMediaType_Audio))
          .MF_MT_SUBTYPE (.guid .MFAudioFormat_MP3))
          .MF_MT_AUDIO_BLOCK_ALIGNMENT
            (.uint32 (MFGetAttributeUINT32 pAudioType .MF_MT_AUDIO_BLOCK_ALIGNMENT 0)))
          .MF_MT_AUDIO_AVG_BYTES_PER_SECOND
            (.uint32 (MFGetAttributeUINT32 pAudioType .MF_MT_AUDIO_AVG_BYTES_PER_SECOND 0)))
          .MF_MT_AUDIO_NUM_CHANNELS
            (.uint32 (MFGetAttributeUINT32 pAudioType .MF_MT_AUDIO_NUM_CHANNELS 0)))
          .MF_MT_AUDIO_SAMPLES_PER_SECOND
            (.uint32 (MFGetAttributeUINT32 pAudioType .MF_MT_AUDIO_SAMPLES_PER_SECOND 0))) := by
  simp [TranscodeToMp4MP3.reconfigure, guarded, outParam, SetGUID, SetUINT32, hhr, hset]

theorem MFGetAttributeUINT32_of_uint32 (a : Attributes) (k : AttrKey) (d v : Nat)
    (h : GetItem a k = some (.uint32 v)) : MFGetAttributeUINT32 a k d = v := by
  simp [MFGetAttributeUINT32, h]

theorem MFGetAttributeUINT32_of_none (a : Attributes) (k : AttrKey) (d : Nat)
    (h : GetItem a k = none) : MFGetAttributeUINT32 a k d = d := by
  simp [MFGetAttributeUINT32, h]

/-- C8 (default-fill completeness, AAC variant): when candidate 0 has major
type audio and a subtype `g` other than AAC and every engine call succeeds,
the store attached to the profile has major type audio, subtype AAC, and
holds each of the eight required fields as a UINT32 (the value read from
candidate 0 with the field's default): candidate 0's value when candidate 0
has the field, and otherwise the default (16 for bits-per-sample, 0 for the
other seven). -/
theorem AAC_default_fill_complete (eng : AudioEngine) (m_pProfile : TranscodeProfile)
    (c : MediaType) (rest : List MediaType) (g : GUID)
    (htypes : eng.availableTypes = c :: rest) (hok : eng.AllSucceed)
    (hmajor : GetItem c .MF_MT_MAJOR_TYPE = some (.guid .MFMediaType_Audio))
    (hsub : GetItem c .MF_MT_SUBTYPE = some (.guid g)) (hne : g ≠ .MFAudioFormat_AAC) :
    ∃ bag, TranscodeToAAC.ConfigureAudioOutput eng m_pProfile =
        (eng.hrSetAudioAttributes, { m_pProfile with audio := some bag }) ∧
      GetItem bag .MF_MT_MAJOR_TYPE = some (.guid .MFMediaType_Audio) ∧
      GetItem bag .MF_MT_SUBTYPE = some (.guid .MFAudioFormat_AAC) ∧
      ∀ kd ∈ [(AttrKey.MF_MT_AUDIO_BITS_PER_SAMPLE, 16),
              (AttrKey.MF_MT_AUDIO_SAMPLES_PER_SECOND, 0),
              (AttrKey.MF_MT_AUDIO_NUM_CHANNELS, 0),
              (AttrKey.MF_MT_AUDIO_AVG_BYTES_PER_SECOND, 0),
              (AttrKey.MF_MT_AAC_PAYLOAD_TYPE, 0),
              (AttrKey.MF_MT_AAC_AUDIO_PROFILE_LEVEL_INDICATION, 0),
              (AttrKey.MF_MT_AUDIO_BLOCK_ALIGNMENT, 0),
              (AttrKey.MF_MT_ALL_SAMPLES_INDEPENDENT, 0)],
        GetItem bag kd.1 = some (.uint32 (MFGetAttributeUINT32 c kd.1 kd.2)) ∧
        (∀ v, GetItem c kd.1 = some (.uint32 v) → GetItem bag kd.1 = some (.uint32 v)) ∧
        (GetItem c kd.1 = none → GetItem bag kd.1 = some (.uint32 kd.2)) := by
  have hsel := selectFirstType_of_succeed eng c rest htypes hok
  obtain ⟨-, -, -, h4, h5, h6, h7, h8, h9⟩ := hok
  have hrec := AAC_reconfigure_of_succeed eng c c (eng.hrGetGUID .MF_MT_SUBTYPE) (h7 _) h8
  refine ⟨(TranscodeToAAC.reconfigure eng c (eng.hrGetGUID .MF_MT_SUBTYPE, c)).2,
    ?_, ?_, ?_, ?_⟩
  · simp [TranscodeToAAC.ConfigureAudioOutput, hsel, guarded, outParam, GetGUID, hmajor,
      hsub, h4, h5, h6, h7, h8, h9, SetAudioAttributes, hne, hrec]
  · simp [hrec, GetItem_SetItem]
  · simp [hrec, GetItem_SetItem]
  · intro kd hkd
    rw [hrec]
    simp only [List.mem_cons, List.mem_singleton, List.not_mem_nil, or_false] at hkd
    rcases hkd with rfl | rfl | rfl | rfl | rfl | rfl | rfl | rfl
    all_goals
      exact ⟨by simp [GetItem_SetItem],
        fun v hv => by simp [GetItem_SetItem, MFGetAttributeUINT32_of_uint32 _ _ _ _ hv],
        fun hn => by simp [GetItem_SetItem, MFGetAttributeUINT32_of_none _ _ _ hn]⟩

/-- An instance of C8: candidate 0 is a two-channel audio type of an unnamed
subtype that carries no other field; every engine call is answered with
`S_OK`. -/
theorem AAC_default_fill_complete_witness :
    GetItem [(AttrKey.MF_MT_MAJOR_TYPE, AttrValue.guid .MFMediaType_Audio),
        (.MF_MT_SUBTYPE, .guid (.other 1)), (.MF_MT_AUDIO_NUM_CHANNELS, .uint32 2)]
      .MF_MT_SUBTYPE = some (.guid (.other 1)) ∧
    GUID.other 1 ≠ GUID.MFAudioFormat_AAC ∧
    ∃ bag, TranscodeToAAC.ConfigureAudioOutput
          (AudioEngine.allOk [[(.MF_MT_MAJOR_TYPE, .guid .MFMediaType_Audio),
            (.MF_MT_SUBTYPE, .guid (.other 1)), (.MF_MT_AUDIO_NUM_CHANNELS, .uint32 2)]])
          TranscodeProfile.empty =
        (S_OK, { TranscodeProfile.empty with audio := some bag }) ∧
      GetItem bag .MF_MT_MAJOR_TYPE = some (.guid .MFMediaType_Audio) ∧
      GetItem bag .MF_MT_SUBTYPE = some (.guid .MFAudioFormat_AAC) ∧
      ∀ kd ∈ [(AttrKey.MF_MT_AUDIO_BITS_PER_SAMPLE, 16),
              (AttrKey.MF_MT_AUDIO_SAMPLES_PER_SECOND, 0),
              (AttrKey.MF_MT_AUDIO_NUM_CHANNELS, 0),
              (AttrKey.MF_MT_AUDIO_AVG_BYTES_PER_SECOND, 0),
              (AttrKey.MF_MT_AAC_PAYLOAD_TYPE, 0),
              (AttrKey.MF_MT_AAC_AUDIO_PROFILE_LEVEL_INDICATION, 0),
              (AttrKey.MF_MT_AUDIO_BLOCK_ALIGNMENT, 0),
              (AttrKey.MF_MT_ALL_SAMPLES_INDEPENDENT, 0)],
        GetItem bag kd.1 = some (.uint32 (MFGetAttributeUINT32
            [(AttrKey.MF_MT_MAJOR_TYPE, AttrValue.guid .MFMediaType_Audio),
              (.MF_MT_SUBTYPE, .guid (.other 1)), (.MF_MT_AUDIO_NUM_CHANNELS, .uint32 2)]
            kd.1 kd.2)) ∧
        (∀ v, GetItem [(AttrKey.MF_MT_MAJOR_TYPE, AttrValue.guid .MFMediaType_Audio),
              (.MF_MT_SUBTYPE, .guid (.other 1)), (.MF_MT_AUDIO_NUM_CHANNELS, .uint32 2)]
            kd.1 = some (.uint32 v) → GetItem bag kd.1 = some (.uint32 v)) ∧
        (GetItem [(AttrKey.MF_MT_MAJOR_TYPE, AttrValue.guid .MFMediaType_Audio),
              (.MF_MT_SUBTYPE, .guid (.other 1)), (.MF_MT_AUDIO_NUM_CHANNELS, .uint32 2)]
            kd.1 = none → GetItem bag kd.1 = some (.uint32 kd.2)) :=
  ⟨rfl, by decide,
    AAC_default_fill_complete
      (AudioEngine.allOk [[(.MF_MT_MAJOR_TYPE, .guid .MFMediaType_Audio),
        (.MF_MT_SUBTYPE, .guid (.other 1)), (.MF_MT_AUDIO_NUM_CHANNELS, .uint32 2)]])
      TranscodeProfile.empty _ [] (.other 1) rfl (AllSucceed_allOk _) rfl rfl (by decide)⟩

/-- C7 as stated fails (MP4/MP3 variant): candidate 0 is an MP3 audio type
without block alignment, every engine call is answered with `S_OK`, and the
store attached to the profile is not candidate 0's attribute set: the field
`MF_MT_AUDIO_BLOCK_ALIGNMENT`, which candidate 0 lacks, has been added with
value 0 (as have the three other numeric fields). -/
theorem MP3_exact_match_adds_fields :
    (TranscodeToMp4MP3.ConfigureAudioOutput
        (AudioEngine.allOk [[(.MF_MT_MAJOR_TYPE, .guid .MFMediaType_Audio),
          (.MF_MT_SUBTYPE, .guid .MFAudioFormat_MP3)]]) TranscodeProfile.empty) =
      (S_OK, { TranscodeProfile.empty with
        audio := some [(.MF_MT_MAJOR_TYPE, .guid .MFMediaType_Audio),
          (.MF_MT_SUBTYPE, .guid .MFAudioFormat_MP3),
          (.MF_MT_AUDIO_BLOCK_ALIGNMENT, .uint32 0),
          (.MF_MT_AUDIO_AVG_BYTES_PER_SECOND, .uint32 0),
          (.MF_MT_AUDIO_NUM_CHANNELS, .uint32 0),
          (.MF_MT_AUDIO_SAMPLES_PER_SECOND, .uint32 0)] }) ∧
    GetItem [(AttrKey.MF_MT_MAJOR_TYPE, AttrValue.guid .MFMediaType_Audio),
        (.MF_MT_SUBTYPE, .guid .MFAudioFormat_MP3)] .MF_MT_AUDIO_BLOCK_ALIGNMENT = none ∧
    ¬ ((TranscodeToMp4MP3.ConfigureAudioOutput
        (AudioEngine.allOk [[(.MF_MT_MAJOR_TYPE, .guid .MFMediaType_Audio),
          (.MF_MT_SUBTYPE, .guid .MFAudioFormat_MP3)]]) TranscodeProfile.empty).2.audio =
      some [(.MF_MT_MAJOR_TYPE, .guid .MFMediaType_Audio),
          (.MF_MT_SUBTYPE, .guid .MFAudioFormat_MP3)]) := by
  decide

/-- C7 as amended (MP4/MP3 variant): when candidate 0 has major type audio and
subtype MP3 and every engine call succeeds, the store attached to the profile
agrees with candidate 0 on every key other than block alignment, average
bytes per second, channel count and sample rate; each of these four holds
candidate 0's UINT32 value when candidate 0 has one (so it is unchanged), and
otherwise holds 0. -/
theorem MP3_exact_match_amended (eng : AudioEngine) (m_pProfile : TranscodeProfile)
    (c : MediaType) (rest : List MediaType)
    (htypes : eng.availableTypes = c :: rest) (hok : eng.AllSucceed)
    (hmajor : GetItem c .MF_MT_MAJOR_TYPE = some (.guid .MFMediaType_Audio))
    (hsub : GetItem c .MF_MT_SUBTYPE = some (.guid .MFAudioFormat_MP3)) :
    ∃ bag, TranscodeToMp4MP3.ConfigureAudioOutput eng m_pProfile =
        (eng.hrSetAudioAttributes, { m_pProfile with audio := some bag }) ∧
      (∀ k, k ∉ [AttrKey.MF_MT_AUDIO_BLOCK_ALIGNMENT, AttrKey.MF_MT_AUDIO_AVG_BYTES_PER_SECOND,
            AttrKey.MF_MT_AUDIO_NUM_CHANNELS, AttrKey.MF_MT_AUDIO_SAMPLES_PER_SECOND] →
          GetItem bag k = GetItem c k) ∧
      ∀ k ∈ [AttrKey.MF_MT_AUDIO_BLOCK_ALIGNMENT, AttrKey.MF_MT_AUDIO_AVG_BYTES_PER_SECOND,
            AttrKey.MF_MT_AUDIO_NUM_CHANNELS, AttrKey.MF_MT_AUDIO_SAMPLES_PER_SECOND],
        GetItem bag k = some (.uint32 (MFGetAttributeUINT32 c k 0)) ∧
        (∀ v, GetItem c k = some (.uint32 v) → GetItem bag k = GetItem c k) ∧
        (GetItem c k = none → GetItem bag k = some (.uint32 0)) := by
  have hsel := selectFirstType_of_succeed eng c rest htypes hok
  obtain ⟨-, -, -, h4, h5, h6, h7, h8, h9⟩ := hok
  have hrec := MP3_reconfigure_of_succeed eng c c eng.hrCopyAllItems h6 h8
  refine ⟨(TranscodeToMp4MP3.reconfigure eng c (eng.hrCopyAllItems, c)).2, ?_, ?_, ?_⟩
  · simp [TranscodeToMp4MP3.ConfigureAudioOutput, hsel, guarded, outParam, GetGUID, hmajor,
      hsub, h4, h5, h6, h7, h8, h9, SetAudioAttributes, hrec]
  · intro k hk
    simp only [List.mem_cons, List.mem_singleton, List.not_mem_nil, or_false, not_or] at hk
    obtain ⟨hk1, hk2, hk3, hk4⟩ := hk
    rw [hrec]
    simp only [GetItem_SetItem, Ne.symm hk1, Ne.symm hk2, Ne.symm hk3, Ne.symm hk4, if_false]
    by_cases hm : AttrKey.MF_MT_SUBTYPE = k
    · subst hm; simp [hsub]
    · by_cases hj : AttrKey.MF_MT_MAJOR_TYPE = k
      · subst hj; simp [hmajor]
      · simp [hm, hj]
  · intro k hk
    rw [hrec]
    simp only [List.mem_cons, List.mem_singleton, List.not_mem_nil, or_false] at hk
    have hval : GetItem (SetItem (SetItem (SetItem (SetItem (SetItem (SetItem c
          .MF_MT_MAJOR_TYPE (.guid .MFMediaType_Audio))
          .MF_MT_SUBTYPE (.guid .MFAudioFormat_MP3))
          .MF_MT_AUDIO_BLOCK_ALIGNMENT
            (.uint32 (MFGetAttributeUINT32 c .MF_MT_AUDIO_BLOCK_ALIGNMENT 0)))
          .MF_MT_AUDIO_AVG_BYTES_PER_SECOND
            (.uint32 (MFGetAttributeUINT32 c .MF_MT_AUDIO_AVG_BYTES_PER_SECOND 0)))
          .MF_MT_AUDIO_NUM_CHANNELS
            (.uint32 (MFGetAttributeUINT32 c .MF_MT_AUDIO_NUM_CHANNELS 0)))
          .MF_MT_AUDIO_SAMPLES_PER_SECOND
            (.uint32 (MFGetAttributeUINT32 c .MF_MT_AUDIO_SAMPLES_PER_SECOND 0))) k =
        some (.uint32 (MFGetAttributeUINT32 c k 0)) := by
      rcases hk with rfl | rfl | rfl | rfl <;> simp [GetItem_SetItem]
    refine ⟨hval, fun v hv => ?_, fun hn => ?_⟩
    · rw [hval, hv, MFGetAttributeUINT32_of_uint32 _ _ _ _ hv]
    · rw [hval, MFGetAttributeUINT32_of_none _ _ _ hn]

/-- An instance of the amended C7: candidate 0 is a two-channel MP3 audio type
that carries no other field; every engine call is answered with `S_OK`. -/
theorem MP3_exact_match_amended_witness :
    GetItem [(AttrKey.MF_MT_MAJOR_TYPE, AttrValue.guid .MFMediaType_Audio),
        (.MF_MT_SUBTYPE, .guid .MFAudioFormat_MP3), (.MF_MT_AUDIO_NUM_CHANNELS, .uint32 2)]
      .MF_MT_SUBTYPE = some (.guid .MFAudioFormat_MP3) ∧
    ∃ bag, TranscodeToMp4MP3.ConfigureAudioOutput
          (AudioEngine.allOk [[(.MF_MT_MAJOR_TYPE, .guid .MFMediaType_Audio),
            (.MF_MT_SUBTYPE, .guid .MFAudioFormat_MP3),
            (.MF_MT_AUDIO_NUM_CHANNELS, .uint32 2)]])
          TranscodeProfile.empty =
        (S_OK, { TranscodeProfile.empty with audio := some bag }) ∧
      (∀ k, k ∉ [AttrKey.MF_MT_AUDIO_BLOCK_ALIGNMENT, AttrKey.MF_MT_AUDIO_AVG_BYTES_PER_SECOND,
            AttrKey.MF_MT_AUDIO_NUM_CHANNELS, AttrKey.MF_MT_AUDIO_SAMPLES_PER_SECOND] →
          GetItem bag k =
            GetItem [(AttrKey.MF_MT_MAJOR_TYPE, AttrValue.guid .MFMediaType_Audio),
              (.MF_MT_SUBTYPE, .guid .MFAudioFormat_MP3),
              (.MF_MT_AUDIO_NUM_CHANNELS, .uint32 2)] k) ∧
      ∀ k ∈ [AttrKey.MF_MT_AUDIO_BLOCK_ALIGNMENT, AttrKey.MF_MT_AUDIO_AVG_BYTES_PER_SECOND,
            AttrKey.MF_MT_AUDIO_NUM_CHANNELS, AttrKey.MF_MT_AUDIO_SAMPLES_PER_SECOND],
        GetItem bag k = some (.uint32 (MFGetAttributeUINT32
            [(AttrKey.MF_MT_MAJOR_TYPE, AttrValue.guid .MFMediaType_Audio),
              (.MF_MT_SUBTYPE, .guid .MFAudioFormat_MP3),
              (.MF_MT_AUDIO_NUM_CHANNELS, .uint32 2)] k 0)) ∧
        (∀ v, GetItem [(AttrKey.MF_MT_MAJOR_TYPE, AttrValue.guid .MFMediaType_Audio),
              (.MF_MT_SUBTYPE, .guid .MFAudioFormat_MP3),
              (.MF_MT_AUDIO_NUM_CHANNELS, .uint32 2)] k = some (.uint32 v) →
          GetItem bag k =
            GetItem [(AttrKey.MF_MT_MAJOR_TYPE, AttrValue.guid .MFMediaType_Audio),
              (.MF_MT_SUBTYPE, .guid .MFAudioFormat_MP3),
              (.MF_MT_AUDIO_NUM_CHANNELS, .uint32 2)] k) ∧
        (GetItem [(AttrKey.MF_MT_MAJOR_TYPE, AttrValue.guid .MFMediaType_Audio),
              (.MF_MT_SUBTYPE, .guid .MFAudioFormat_MP3),
              (.MF_MT_AUDIO_NUM_CHANNELS, .uint32 2)] k = none →
          GetItem bag k = some (.uint32 0)) :=
  ⟨rfl,
    MP3_exact_match_amended
      (AudioEngine.allOk [[(.MF_MT_MAJOR_TYPE, .guid .MFMediaType_Audio),
        (.MF_MT_SUBTYPE, .guid .MFAudioFormat_MP3), (.MF_MT_AUDIO_NUM_CHANNELS, .uint32 2)]])
      TranscodeProfile.empty _ [] rfl (AllSucceed_allOk _) rfl rfl⟩

theorem selectFirstType_cons (eng : AudioEngine) (c : MediaType) (rest : List MediaType) :
    selectFirstType { eng with availableTypes := c :: rest } =
      selectFirstType { eng with availableTypes := [c] } := by
  simp only [selectFirstType, guarded, outParam, List.length_cons, List.headD_cons,
    List.length_nil]
  cases SUCCEEDED eng.hrGetAvailableTypes <;> cases SUCCEEDED eng.hrGetElementCount <;> simp

/-- C9 (first-fit determinism): in both variants, two engines that answer every
call alike and whose non-empty collections have the same element 0 make
`ConfigureAudioOutput` return the same status and leave the same profile,
whatever the other elements of the two collections are. -/
theorem ConfigureAudioOutput_first_fit (eng : AudioEngine) (m_pProfile : TranscodeProfile)
    (c : MediaType) (rest1 rest2 : List MediaType) :
    TranscodeToAAC.ConfigureAudioOutput { eng with availableTypes := c :: rest1 } m_pProfile =
      TranscodeToAAC.ConfigureAudioOutput { eng with availableTypes := c :: rest2 } m_pProfile ∧
    TranscodeToMp4MP3.ConfigureAudioOutput { eng with availableTypes := c :: rest1 }
        m_pProfile =
      TranscodeToMp4MP3.ConfigureAudioOutput { eng with availableTypes := c :: rest2 }
        m_pProfile := by
  have h1 := selectFirstType_cons eng c rest1
  have h2 := selectFirstType_cons eng c rest2
  constructor
  · simp only [TranscodeToAAC.ConfigureAudioOutput, TranscodeToAAC.reconfigure, h1, h2]
  · simp only [TranscodeToMp4MP3.ConfigureAudioOutput, TranscodeToMp4MP3.reconfigure, h1, h2]

/-- C10 (video preset copied verbatim), evaluated on the code: with every
attribute-store call answered with `S_OK`, the frame size attached to the
profile packs width 320 and height 320 (the preset's first component taken
twice), not the preset's frame size 320 x 240; subtype, profile, frame rate
and bitrate are those of `h264_profiles[3]`. -/
theorem ConfigureVideoOutput_frame_size_not_preset (m_pProfile : TranscodeProfile) :
    TranscodeToMp4MP3.ConfigureVideoOutput TranscodeToMp4MP3.VideoEngine.allOk m_pProfile =
      (S_OK, { m_pProfile with
        video := some [(.MF_MT_SUBTYPE, .guid .MFVideoFormat_H264),
          (.MF_MT_MPEG2_PROFILE, .uint32 66),
          (.MF_MT_FRAME_SIZE, .uint64 (Pack2UINT32AsUINT64 320 320)),
          (.MF_MT_FRAME_RATE, .uint64 (Pack2UINT32AsUINT64 29970 1000)),
          (.MF_MT_AVG_BITRATE, .uint32 528560)] }) ∧
    (TranscodeToMp4MP3.h264_profiles.get ⟨3, by decide⟩).frame_size = ⟨320, 240⟩ ∧
    Pack2UINT32AsUINT64 320 320 ≠ Pack2UINT32AsUINT64 320 240 :=
  ⟨rfl, rfl, by decide⟩

/-! ## Facts about container negotiation and teardown -/

/-- C11 (container attributes): in both variants, when the store is created,
both writes succeed and the store is attached, the container store attached
to the profile consists of exactly two items, the container type (ADTS in
the AAC variant, MPEG4 in the MP4/MP3 variant) and
`MF_TRANSCODE_ADJUST_PROFILE` set to `MF_TRANSCODE_ADJUST_PROFILE_DEFAULT`;
it is the same for every engine and every profile, and the audio and video
parts of the profile are untouched. -/
theorem ConfigureContainer_two_entries (eng : ContainerEngine) (m_pProfile : TranscodeProfile)
    (hcreate : SUCCEEDED eng.hrCreateAttributes = true)
    (htype : SUCCEEDED (eng.hrSetItem .MF_TRANSCODE_CONTAINERTYPE) = true)
    (hadjust : SUCCEEDED (eng.hrSetItem .MF_TRANSCODE_ADJUST_PROFILE) = true)
    (hattach : SUCCEEDED eng.hrSetContainerAttributes = true) :
    TranscodeToAAC.ConfigureContainer eng m_pProfile =
      (eng.hrSetContainerAttributes, { m_pProfile with
        container := some [(.MF_TRANSCODE_CONTAINERTYPE, .guid .MFTranscodeContainerType_ADTS),
          (.MF_TRANSCODE_ADJUST_PROFILE, .uint32 MF_TRANSCODE_ADJUST_PROFILE_DEFAULT)] }) ∧
    TranscodeToMp4MP3.ConfigureContainer eng m_pProfile =
      (eng.hrSetContainerAttributes, { m_pProfile with
        container := some [(.MF_TRANSCODE_CONTAINERTYPE, .guid .MFTranscodeContainerType_MPEG4),
          (.MF_TRANSCODE_ADJUST_PROFILE, .uint32 MF_TRANSCODE_ADJUST_PROFILE_DEFAULT)] }) := by
  constructor
  · simp [TranscodeToAAC.ConfigureContainer, guarded, outParam, SetGUID, SetUINT32,
      SetContainerAttributes, SetItem, hcreate, htype, hadjust, hattach]
  · simp [TranscodeToMp4MP3.ConfigureContainer, guarded, outParam, SetGUID, SetUINT32,
      SetContainerAttributes, SetItem, hcreate, htype, hadjust, hattach]

/-- An instance of C11: every call is answered with `S_OK` and the profile is
empty. -/
theorem ConfigureContainer_two_entries_witness :
    SUCCEEDED ContainerEngine.allOk.hrCreateAttributes = true ∧
    TranscodeToAAC.ConfigureContainer ContainerEngine.allOk TranscodeProfile.empty =
      (S_OK, { TranscodeProfile.empty with
        container := some [(.MF_TRANSCODE_CONTAINERTYPE, .guid .MFTranscodeContainerType_ADTS),
          (.MF_TRANSCODE_ADJUST_PROFILE, .uint32 MF_TRANSCODE_ADJUST_PROFILE_DEFAULT)] }) ∧
    TranscodeToMp4MP3.ConfigureContainer ContainerEngine.allOk TranscodeProfile.empty =
      (S_OK, { TranscodeProfile.empty with
        container := some [(.MF_TRANSCODE_CONTAINERTYPE, .guid .MFTranscodeContainerType_MPEG4),
          (.MF_TRANSCODE_ADJUST_PROFILE, .uint32 MF_TRANSCODE_ADJUST_PROFILE_DEFAULT)] }) :=
  ⟨rfl, ConfigureContainer_two_entries ContainerEngine.allOk TranscodeProfile.empty
    rfl rfl rfl rfl⟩

/-- C12 (shutdown ordering and skip): with a source and a session present,
`Shutdown` calls the source shutdown first; when that fails it makes no other
call and returns the source's status; when it succeeds it then calls the
session shutdown, once, and returns the session's status. -/
theorem Shutdown_source_then_session (hrSource hrSession : HRESULT) :
    (FAILED hrSource = true →
      Shutdown (some hrSource) (some hrSession) =
        (hrSource, [ShutdownCall.SourceShutdown])) ∧
    (SUCCEEDED hrSource = true →
      Shutdown (some hrSource) (some hrSession) =
        (hrSession, [ShutdownCall.SourceShutdown, ShutdownCall.SessionShutdown])) := by
  constructor
  · intro h
    simp [Shutdown, SUCCEEDED_of_FAILED h]
  · intro h
    simp [Shutdown, h]

/-! ## Facts about the commands of the session driver -/

theorem loopBody_commands (s : TranscodeState) (e : SessionEvent) :
    (loopBody s e).2.commands =
      s.commands ++ ([e].filter reachesSwitch).filterMap (fun x => commandIssued x.meType) := by
  unfold loopBody dispatch Start reachesSwitch
  simp only [SUCCEEDED_eq_not_FAILED]
  cases h1 : FAILED e.hrGetEvent <;> cases h2 : FAILED e.hrGetType <;>
    cases h3 : FAILED e.hrGetStatus <;> cases h4 : FAILED e.hrStatus <;>
    cases h5 : FAILED e.hrCommand <;> cases h6 : e.meType <;>
    simp [h1, h2, h3, h4, h5, h6, commandIssued]

theorem reachesSwitch_of_noFailure (e : SessionEvent)
    (h1 : SUCCEEDED e.hrGetEvent = true) (h2 : SUCCEEDED e.hrGetType = true)
    (h3 : SUCCEEDED e.hrGetStatus = true) (h4 : SUCCEEDED e.hrStatus = true) :
    reachesSwitch e = true := by
  simp [reachesSwitch, h1, h2, h3, h4]

theorem commandIssued_eq (t : MediaEventType) :
    commandIssued t =
      if t = MediaEventType.MESessionTopologySet then some SessionCommand.Start
      else if t = MediaEventType.MESessionEnded then some SessionCommand.Close else none := by
  cases t <;> simp [commandIssued]

theorem filterMap_take_takeWhile {α β : Type} (p : α → Bool) (f : α → Option β)
    (hf : ∀ x, p x = false → f x = none) (l : List α) :
    (l.take ((l.takeWhile p).length + 1)).filterMap f = (l.takeWhile p).filterMap f := by
  induction l with
  | nil => simp
  | cons x l ih =>
    cases hp : p x with
    | true =>
      simp only [List.takeWhile_cons, hp, if_true, List.length_cons, List.take_succ_cons,
        List.filterMap_cons]
      rw [ih]
    | false =>
      simp [List.takeWhile_cons, hp, hf x hp]

theorem transcodeLoop_commands_of_succeed (evs : List SessionEvent) :
    ∀ s : TranscodeState, s.meType ≠ MediaEventType.MESessionClosed →
      (∀ e ∈ evs, SUCCEEDED e.hrGetEvent = true ∧ SUCCEEDED e.hrGetType = true ∧
        SUCCEEDED e.hrGetStatus = true ∧ SUCCEEDED e.hrStatus = true ∧
        SUCCEEDED e.hrCommand = true) →
      (transcodeLoop s evs).2.commands =
        s.commands ++
          (evs.takeWhile (fun e => decide (e.meType ≠ MediaEventType.MESessionClosed))).filterMap
            (fun e => commandIssued e.meType) := by
  induction evs with
  | nil => intro s _ _; simp [transcodeLoop]
  | cons e rest ih =>
    intro s hne hok
    obtain ⟨h1, h2, h3, h4, h5⟩ := hok e (List.mem_cons_self _ _)
    have hb : (loopBody s e).1 = false := loopBody_of_noFailure s e h1 h2 h3 h4 (fun _ => h5)
    obtain ⟨-, hty, -⟩ := loopBody_continue s e hb
    have hcmd := loopBody_commands s e
    simp only [List.filter_cons, reachesSwitch_of_noFailure e h1 h2 h3 h4, if_true,
      List.filter_nil, List.filterMap_cons, List.filterMap_nil] at hcmd
    simp only [transcodeLoop, hne, if_false, hb, Bool.false_eq_true]
    by_cases hc : e.meType = MediaEventType.MESessionClosed
    · rw [transcodeLoop_closed _ _ (by rw [hty]; exact hc), hcmd]
      simp [List.takeWhile_cons, hc, commandIssued]
    · rw [ih _ (by rw [hty]; exact hc) (fun x hx => hok x (List.mem_cons_of_mem _ hx)), hcmd]
      cases hci : commandIssued e.meType <;>
        simp [List.takeWhile_cons, hc, hci]

/-- C14 (event-to-command dispatch): when every event is fetched and read
without failure, carries a success status, and every `Start` and `Close`
succeeds, the commands `Transcode` issues are, in event order, one `Start`
for each `TopologySet` event and one `Close` for each `Ended` event among the
events up to and including the first `Closed` event, and nothing for any
other event. -/
theorem Transcode_dispatch (evs : List SessionEvent)
    (hok : ∀ e ∈ evs, SUCCEEDED e.hrGetEvent = true ∧ SUCCEEDED e.hrGetType = true ∧
      SUCCEEDED e.hrGetStatus = true ∧ SUCCEEDED e.hrStatus = true ∧
      SUCCEEDED e.hrCommand = true) :
    (Transcode evs).commands =
      (evs.take ((evs.takeWhile
          (fun e => decide (e.meType ≠ MediaEventType.MESessionClosed))).length + 1)).filterMap
        (fun e =>
          if e.meType = MediaEventType.MESessionTopologySet then some SessionCommand.Start
          else if e.meType = MediaEventType.MESessionEnded then some SessionCommand.Close
          else none) := by
  have hloop := transcodeLoop_commands_of_succeed evs transcodeInit (by decide) hok
  rw [filterMap_take_takeWhile]
  · unfold Transcode
    simp only [hloop, commandIssued_eq]
    simp [transcodeInit]
  · intro x hx
    have hc : x.meType = MediaEventType.MESessionClosed := by simpa using hx
    simp [hc]

/-- An instance of C14, the run of E2E scenario A: the events
`TopologySet(ok), Started(ok), Ended(ok), Closed(ok)` give commands
`[Start, Close]`, and the run returns `S_OK` after four events. -/
theorem Transcode_dispatch_witness :
    Transcode [mkEvent .MESessionTopologySet S_OK S_OK, mkEvent .MESessionStarted S_OK S_OK,
        mkEvent .MESessionEnded S_OK S_OK, mkEvent .MESessionClosed S_OK S_OK] =
      { result := some S_OK, commands := [SessionCommand.Start, SessionCommand.Close],
        pulled := 4 } ∧
    (Transcode [mkEvent .MESessionTopologySet S_OK S_OK, mkEvent .MESessionStarted S_OK S_OK,
        mkEvent .MESessionEnded S_OK S_OK, mkEvent .MESessionClosed S_OK S_OK]).commands =
      [SessionCommand.Start, SessionCommand.Close] :=
  ⟨by decide,
    Transcode_dispatch
      [mkEvent .MESessionTopologySet S_OK S_OK, mkEvent .MESessionStarted S_OK S_OK,
        mkEvent .MESessionEnded S_OK S_OK, mkEvent .MESessionClosed S_OK S_OK]
      (by decide)⟩

/-! ## Facts about where the session driver stops -/

theorem transcodeLoop_running_of_no_stop (pre : List SessionEvent) :
    ∀ s : TranscodeState, s.meType ≠ MediaEventType.MESessionClosed →
      (∀ x ∈ pre, ¬ (FAILED x.hrGetEvent = true ∨ FAILED x.hrGetType = true ∨
        FAILED x.hrGetStatus = true ∨ FAILED x.hrStatus = true ∨
        (x.meType = MediaEventType.MESessionTopologySet ∧ FAILED x.hrCommand = true) ∨
        (x.meType = MediaEventType.MESessionEnded ∧ FAILED x.hrCommand = true) ∨
        x.meType = MediaEventType.MESessionClosed)) →
      (transcodeLoop s pre).1 = false := by
  induction pre with
  | nil => intro s hne _; simp [transcodeLoop, hne]
  | cons x pre ih =>
    intro s hne hpre
    have hx := hpre x (List.mem_cons_self _ _)
    simp only [not_or, not_and, Bool.not_eq_true] at hx
    obtain ⟨h1, h2, h3, h4, h5, h6, h7⟩ := hx
    have hb : (loopBody s x).1 = false :=
      loopBody_of_noFailure s x (SUCCEEDED_of_not_FAILED h1) (SUCCEEDED_of_not_FAILED h2)
        (SUCCEEDED_of_not_FAILED h3) (SUCCEEDED_of_not_FAILED h4)
        (fun h => h.elim (fun ht => SUCCEEDED_of_not_FAILED (h5 ht))
          (fun ht => SUCCEEDED_of_not_FAILED (h6 ht)))
    obtain ⟨-, hty, -⟩ := loopBody_continue s x hb
    simp only [transcodeLoop, hne, if_false, hb, Bool.false_eq_true]
    exact ih _ (by rw [hty]; exact h7) (fun y hy => hpre y (List.mem_cons_of_mem _ hy))

theorem transcodeLoop_stops_at (s : TranscodeState) (e : SessionEvent)
    (post : List SessionEvent) (hne : s.meType ≠ MediaEventType.MESessionClosed)
    (he : FAILED e.hrGetEvent = true ∨ FAILED e.hrGetType = true ∨
      FAILED e.hrGetStatus = true ∨ FAILED e.hrStatus = true ∨
      (e.meType = MediaEventType.MESessionTopologySet ∧ FAILED e.hrCommand = true) ∨
      (e.meType = MediaEventType.MESessionEnded ∧ FAILED e.hrCommand = true) ∨
      e.meType = MediaEventType.MESessionClosed) :
    transcodeLoop s (e :: post) = (true, (loopBody s e).2) := by
  simp only [transcodeLoop, hne, if_false]
  cases hb : (loopBody s e).1 with
  | true => simp
  | false =>
    obtain ⟨⟨h1, h2, h3, h4, h5⟩, hty, -⟩ := loopBody_continue s e hb
    have hclosed : e.meType = MediaEventType.MESessionClosed := by
      rcases he with h | h | h | h | h | h | h
      · rw [FAILED_of_SUCCEEDED h1] at h; cases h
      · rw [FAILED_of_SUCCEEDED h2] at h; cases h
      · rw [FAILED_of_SUCCEEDED h3] at h; cases h
      · rw [FAILED_of_SUCCEEDED h4] at h; cases h
      · rw [FAILED_of_SUCCEEDED (h5 (Or.inl h.1))] at h; cases h.2
      · rw [FAILED_of_SUCCEEDED (h5 (Or.inr h.1))] at h; cases h.2
      · exact h
    simp only [Bool.false_eq_true, if_false]
    exact transcodeLoop_closed _ _ (by rw [hty]; exact hclosed)

/-- C16 (the loop consumes exactly a prefix): when none of the events `pre`
is a stopping event and `e` is one, `Transcode` run on `pre`, `e` and any
further events `post` returns, has pulled exactly `pre.length + 1` events,
and its whole outcome (status, commands, events pulled) is the one it has
without `post`; the commands are those issued for `pre` followed by the
command issued for `e`, if `e` reaches the `switch`.  An event is stopping
when its fetch, its type read or its status read fails, or its status is a
failure, or it is a `TopologySet` whose `Start` fails, or an `Ended` whose
`Close` fails, or it is a `Closed` event. -/
theorem Transcode_stops_at_first_stopping_event (pre post : List SessionEvent) (e : SessionEvent)
    (hpre : ∀ x ∈ pre, ¬ (FAILED x.hrGetEvent = true ∨ FAILED x.hrGetType = true ∨
      FAILED x.hrGetStatus = true ∨ FAILED x.hrStatus = true ∨
      (x.meType = MediaEventType.MESessionTopologySet ∧ FAILED x.hrCommand = true) ∨
      (x.meType = MediaEventType.MESessionEnded ∧ FAILED x.hrCommand = true) ∨
      x.meType = MediaEventType.MESessionClosed))
    (he : FAILED e.hrGetEvent = true ∨ FAILED e.hrGetType = true ∨
      FAILED e.hrGetStatus = true ∨ FAILED e.hrStatus = true ∨
      (e.meType = MediaEventType.MESessionTopologySet ∧ FAILED e.hrCommand = true) ∨
      (e.meType = MediaEventType.MESessionEnded ∧ FAILED e.hrCommand = true) ∨
      e.meType = MediaEventType.MESessionClosed) :
    (∃ hr, (Transcode (pre ++ e :: post)).result = some hr) ∧
    (Transcode (pre ++ e :: post)).pulled = pre.length + 1 ∧
    Transcode (pre ++ e :: post) = Transcode (pre ++ [e]) ∧
    (Transcode (pre ++ e :: post)).commands =
      (Transcode pre).commands ++
        ([e].filter reachesSwitch).filterMap (fun x => commandIssued x.meType) := by
  have hrun := transcodeLoop_running_of_no_stop pre transcodeInit (by decide) hpre
  rcases hloop : transcodeLoop transcodeInit pre with ⟨b, s'⟩
  rw [hloop] at hrun
  simp only at hrun
  subst hrun
  have hne := transcodeLoop_running_meType _ _ _ hloop
  have hp := transcodeLoop_running_pulled _ _ _ hloop
  have hp0 : s'.pulled = pre.length := by rw [hp]; simp [transcodeInit]
  have h1 : transcodeLoop transcodeInit (pre ++ e :: post) = (true, (loopBody s' e).2) := by
    rw [transcodeLoop_append _ _ pre (e :: post) hloop]
    exact transcodeLoop_stops_at s' e post hne he
  have h2 : transcodeLoop transcodeInit (pre ++ [e]) = (true, (loopBody s' e).2) := by
    rw [transcodeLoop_append _ _ pre [e] hloop]
    exact transcodeLoop_stops_at s' e [] hne he
  refine ⟨⟨(loopBody s' e).2.hr, ?_⟩, ?_, ?_, ?_⟩
  · simp [Transcode, h1]
  · simp [Transcode, h1, loopBody_pulled, hp0]
  · simp [Transcode, h1, h2]
  · simp only [Transcode, h1, hloop]
    exact loopBody_commands s' e

/-- An instance of C16: after `TopologySet(ok), Started(ok)`, the event
`Ended(ok)` whose `Close` fails with `E_FAIL` is the first stopping event;
a `Closed(ok)` that follows is never pulled. -/
theorem Transcode_stops_at_first_stopping_event_witness :
    FAILED E_FAIL = true ∧
    Transcode ([mkEvent .MESessionTopologySet S_OK S_OK, mkEvent .MESessionStarted S_OK S_OK]
        ++ mkEvent .MESessionEnded S_OK E_FAIL :: [mkEvent .MESessionClosed S_OK S_OK]) =
      { result := some E_FAIL, commands := [SessionCommand.Start, SessionCommand.Close],
        pulled := 3 } ∧
    ((∃ hr, (Transcode ([mkEvent .MESessionTopologySet S_OK S_OK,
          mkEvent .MESessionStarted S_OK S_OK]
        ++ mkEvent .MESessionEnded S_OK E_FAIL :: [mkEvent .MESessionClosed S_OK S_OK])).result
        = some hr) ∧
    (Transcode ([mkEvent .MESessionTopologySet S_OK S_OK, mkEvent .MESessionStarted S_OK S_OK]
        ++ mkEvent .MESessionEnded S_OK E_FAIL :: [mkEvent .MESessionClosed S_OK S_OK])).pulled
      = 2 + 1 ∧
    Transcode ([mkEvent .MESessionTopologySet S_OK S_OK, mkEvent .MESessionStarted S_OK S_OK]
        ++ mkEvent .MESessionEnded S_OK E_FAIL :: [mkEvent .MESessionClosed S_OK S_OK]) =
      Transcode ([mkEvent .MESessionTopologySet S_OK S_OK, mkEvent .MESessionStarted S_OK S_OK]
        ++ [mkEvent .MESessionEnded S_OK E_FAIL]) ∧
    (Transcode ([mkEvent .MESessionTopologySet S_OK S_OK, mkEvent .MESessionStarted S_OK S_OK]
        ++ mkEvent .MESessionEnded S_OK E_FAIL :: [mkEvent .MESessionClosed S_OK S_OK])).commands
      = (Transcode [mkEvent .MESessionTopologySet S_OK S_OK,
          mkEvent .MESessionStarted S_OK S_OK]).commands ++
        ([mkEvent .MESessionEnded S_OK E_FAIL].filter reachesSwitch).filterMap
          (fun x => commandIssued x.meType)) :=
  ⟨by decide, by decide,
    Transcode_stops_at_first_stopping_event
      [mkEvent .MESessionTopologySet S_OK S_OK, mkEvent .MESessionStarted S_OK S_OK]
      [mkEvent .MESessionClosed S_OK S_OK] (mkEvent .MESessionEnded S_OK E_FAIL)
      (by decide) (by decide)⟩

/-! ## Facts about the observed states of the session driver -/

theorem pulledEvents_nil : pulledEvents [] = [] := rfl

theorem pulledEvents_cons (e : SessionEvent) (rest : List SessionEvent) :
    pulledEvents (e :: rest) = if leavesLoop e then [e] else e :: pulledEvents rest := by
  cases h : leavesLoop e <;> simp [pulledEvents, List.takeWhile_cons, h]

theorem leavesLoop_true_iff (e : SessionEvent) :
    leavesLoop e = true ↔
      (FAILED e.hrGetEvent = true ∨ FAILED e.hrGetType = true ∨
        FAILED e.hrGetStatus = true ∨ FAILED e.hrStatus = true ∨
        (e.meType = MediaEventType.MESessionTopologySet ∧ FAILED e.hrCommand = true) ∨
        (e.meType = MediaEventType.MESessionEnded ∧ FAILED e.hrCommand = true) ∨
        e.meType = MediaEventType.MESessionClosed) := by
  simp only [leavesLoop, Bool.or_eq_true, Bool.and_eq_true, decide_eq_true_eq, or_assoc]

theorem not_leavesLoop (e : SessionEvent) (h : leavesLoop e = false) :
    SUCCEEDED e.hrGetEvent = true ∧ SUCCEEDED e.hrGetType = true ∧
      SUCCEEDED e.hrGetStatus = true ∧ SUCCEEDED e.hrStatus = true ∧
      (e.meType = MediaEventType.MESessionTopologySet ∨
        e.meType = MediaEventType.MESessionEnded → SUCCEEDED e.hrCommand = true) ∧
      e.meType ≠ MediaEventType.MESessionClosed := by
  have hn : ¬ (leavesLoop e = true) := by rw [h]; decide
  rw [leavesLoop_true_iff] at hn
  simp only [not_or, not_and, Bool.not_eq_true] at hn
  obtain ⟨h1, h2, h3, h4, h5, h6, h7⟩ := hn
  exact ⟨SUCCEEDED_of_not_FAILED h1, SUCCEEDED_of_not_FAILED h2, SUCCEEDED_of_not_FAILED h3,
    SUCCEEDED_of_not_FAILED h4,
    fun h => h.elim (fun ht => SUCCEEDED_of_not_FAILED (h5 ht))
      (fun ht => SUCCEEDED_of_not_FAILED (h6 ht)), h7⟩

theorem switchTrace_closed (s : TranscodeState) (evs : List SessionEvent)
    (h : s.meType = MediaEventType.MESessionClosed) : switchTrace s evs = [] := by
  cases evs <;> simp [switchTrace, h]

theorem loopBody_meType_of_reachesSwitch (s : TranscodeState) (e : SessionEvent)
    (h : reachesSwitch e = true) : (loopBody s e).2.meType = e.meType := by
  revert h
  unfold loopBody dispatch Start reachesSwitch
  simp only [SUCCEEDED_eq_not_FAILED]
  cases h1 : FAILED e.hrGetEvent <;> cases h2 : FAILED e.hrGetType <;>
    cases h3 : FAILED e.hrGetStatus <;> cases h4 : FAILED e.hrStatus <;>
    cases h5 : FAILED e.hrCommand <;> cases h6 : e.meType <;> simp [h1, h2, h3, h4, h5]

theorem transcodeLoop_observed (evs : List SessionEvent) :
    ∀ s : TranscodeState, s.meType ≠ MediaEventType.MESessionClosed →
      (transcodeLoop s evs).2.pulled = s.pulled + (pulledEvents evs).length ∧
      (transcodeLoop s evs).2.commands =
        s.commands ++
          ((pulledEvents evs).filter reachesSwitch).filterMap
            (fun x => commandIssued x.meType) ∧
      switchTrace s evs = ((pulledEvents evs).filter reachesSwitch).map (fun x => x.meType) := by
  induction evs with
  | nil => intro s _; simp [transcodeLoop, switchTrace, pulledEvents_nil]
  | cons e rest ih =>
    intro s hne
    cases hl : leavesLoop e with
    | true =>
      have hstop := transcodeLoop_stops_at s e rest hne ((leavesLoop_true_iff e).mp hl)
      rw [hstop, pulledEvents_cons, hl]
      refine ⟨?_, ?_, ?_⟩
      · simp [loopBody_pulled]
      · simpa using loopBody_commands s e
      · simp only [switchTrace, hne, if_false, if_true]
        have htail : (if (loopBody s e).1 = true then ([] : List MediaEventType)
            else switchTrace (loopBody s e).2 rest) = [] := by
          cases hb : (loopBody s e).1 with
          | true => simp
          | false =>
            have hloop : transcodeLoop s (e :: rest) =
                transcodeLoop (loopBody s e).2 rest := by
              simp [transcodeLoop, hne, hb]
            have hcl : (loopBody s e).2.meType = MediaEventType.MESessionClosed := by
              by_contra hnc
              have hrun := transcodeLoop_stops_at s e [] hne ((leavesLoop_true_iff e).mp hl)
              simp [transcodeLoop, hne, hb, hnc] at hrun
            simp [switchTrace_closed _ _ hcl]
        rw [htail]
        cases hr : reachesSwitch e with
        | true => simp [hr, loopBody_meType_of_reachesSwitch s e hr]
        | false => simp [hr]
    | false =>
      obtain ⟨h1, h2, h3, h4, h5, h6⟩ := not_leavesLoop e hl
      have hb : (loopBody s e).1 = false := loopBody_of_noFailure s e h1 h2 h3 h4 h5
      obtain ⟨-, hty, -⟩ := loopBody_continue s e hb
      have hr := reachesSwitch_of_noFailure e h1 h2 h3 h4
      have hne2 : (loopBody s e).2.meType ≠ MediaEventType.MESessionClosed := by
        rw [hty]; exact h6
      obtain ⟨ihp, ihc, iht⟩ := ih _ hne2
      have hloop : transcodeLoop s (e :: rest) = transcodeLoop (loopBody s e).2 rest := by
        simp [transcodeLoop, hne, hb]
      rw [hloop, pulledEvents_cons, hl]
      refine ⟨?_, ?_, ?_⟩
      · rw [ihp, loopBody_pulled]; simp; omega
      · rw [ihc, loopBody_commands s e]
        cases hc : commandIssued e.meType <;>
          simp [List.filter_cons, hr, List.append_assoc, List.filterMap_cons, hc]
      · simp only [switchTrace, hne, if_false, hb, hr, if_true, Bool.false_eq_true, iht, hty]
        simp [List.filter_cons, hr]


theorem stateEntered_rank_pos (t : MediaEventType) (st : SessionState)
    (h : stateEntered t = some st) : 0 < st.rank := by
  cases t <;> simp [stateEntered] at h <;> subst h <;> decide

theorem commandIssued_eq_bind (t : MediaEventType) :
    commandIssued t = (stateEntered t).bind (fun st =>
      match st with
      | SessionState.TopologySet => some SessionCommand.Start
      | SessionState.Ended => some SessionCommand.Close
      | _ => none) := by
  cases t <;> rfl

theorem increasing_states_sublist (m : List SessionState)
    (hpos : ∀ st ∈ m, 0 < st.rank)
    (hinc : m.Pairwise (fun a b => a.rank < b.rank)) :
    List.Sublist m [SessionState.TopologySet, SessionState.Started, SessionState.Ended,
      SessionState.Closed] := by
  haveI : IsAntisymm SessionState (fun a b => a.rank < b.rank) :=
    ⟨fun a b h1 h2 => absurd h1 (Nat.lt_asymm h2)⟩
  apply List.sublist_of_subperm_of_sorted _ hinc (by decide)
  apply List.subperm_of_subset
  · exact hinc.imp (fun {a b} h hab => by rw [hab] at h; exact Nat.lt_irrefl _ h)
  · intro st hst
    have := hpos st hst
    cases st <;> simp [SessionState.rank] at this ⊢

theorem commands_of_chain_sublist :
    ∀ m ∈ List.sublists [SessionState.TopologySet, SessionState.Started, SessionState.Ended,
        SessionState.Closed],
      m.filterMap (fun st =>
        match st with
        | SessionState.TopologySet => some SessionCommand.Start
        | SessionState.Ended => some SessionCommand.Close
        | _ => none) =
      (if SessionState.TopologySet ∈ m then [SessionCommand.Start] else []) ++
        (if SessionState.Ended ∈ m then [SessionCommand.Close] else []) := by
  decide

theorem mem_states_iff_any (h : List SessionEvent) (t : MediaEventType) (st : SessionState)
    (hst : ∀ t', stateEntered t' = some st ↔ t' = t) :
    st ∈ h.filterMap (fun e => stateEntered e.meType) ↔
      h.any (fun e => decide (e.meType = t)) = true := by
  simp only [List.mem_filterMap, List.any_eq_true, decide_eq_true_eq, hst]


theorem observedStates_eq (evs : List SessionEvent) :
    observedStates evs =
      SessionState.Unbound ::
        (handledEvents evs).filterMap (fun e => stateEntered e.meType) := by
  obtain ⟨-, -, ht⟩ := transcodeLoop_observed evs transcodeInit (by decide)
  unfold observedStates handledEvents
  rw [ht, List.filterMap_map]
  rfl

theorem observedStates_forward_iff (evs : List SessionEvent) :
    (observedStates evs).Pairwise (fun a b => a.rank < b.rank) ↔
      ((handledEvents evs).filterMap (fun e => stateEntered e.meType)).Pairwise
        (fun a b => a.rank < b.rank) := by
  rw [observedStates_eq, List.pairwise_cons]
  constructor
  · exact fun h => h.2
  · intro h
    refine ⟨fun st hst => ?_, h⟩
    obtain ⟨e, -, he⟩ := List.mem_filterMap.mp hst
    exact stateEntered_rank_pos _ _ he

/-- C13 as stated fails: the driver keeps no session state and dispatches on
the event type alone.  On `TopologySet(ok), TopologySet(ok)` the state
`TopologySet` is entered twice and `Start` is issued twice; on
`Ended(ok), TopologySet(ok)` the observed state goes from `Ended` back to
`TopologySet` and a `Start` is issued after a `Close`. -/
theorem Transcode_not_forward_only :
    observedStates [mkEvent .MESessionTopologySet S_OK S_OK,
        mkEvent .MESessionTopologySet S_OK S_OK] =
      [SessionState.Unbound, SessionState.TopologySet, SessionState.TopologySet] ∧
    (Transcode [mkEvent .MESessionTopologySet S_OK S_OK,
        mkEvent .MESessionTopologySet S_OK S_OK]).commands =
      [SessionCommand.Start, SessionCommand.Start] ∧
    observedStates [mkEvent .MESessionEnded S_OK S_OK,
        mkEvent .MESessionTopologySet S_OK S_OK] =
      [SessionState.Unbound, SessionState.Ended, SessionState.TopologySet] ∧
    (Transcode [mkEvent .MESessionEnded S_OK S_OK,
        mkEvent .MESessionTopologySet S_OK S_OK]).commands =
      [SessionCommand.Close, SessionCommand.Start] ∧
    ¬ (observedStates [mkEvent .MESessionTopologySet S_OK S_OK,
        mkEvent .MESessionTopologySet S_OK S_OK]).Pairwise (fun a b => a.rank < b.rank) := by
  decide

/-- C13 as amended: when the events that the driver handles (the events up to
and including the first one after which the loop is left, as far as they
reach the `switch`) have their lifecycle types `TopologySet`, `Started`,
`Ended`, `Closed` in forward order, each at most once, then
* the driver pulls exactly the events up to and including the first one
  after which the loop is left;
* the observed state sequence is `Unbound` followed by the states of the
  handled events, and it is strictly increasing in the state list
  `Unbound, TopologySet, Started, Ended, Closed` (it never regresses and no
  state is revisited);
* the commands issued are, in event order, one `Start` for each handled
  `TopologySet` event and one `Close` for each handled `Ended` event, which
  here is exactly: one `Start` if a `TopologySet` event is handled, followed
  by one `Close` if an `Ended` event is handled.
Events that are never pulled or never reach the `switch` are not
constrained. -/
theorem Transcode_forward_only_of_ordered (evs : List SessionEvent)
    (horder : ((handledEvents evs).filterMap (fun e => stateEntered e.meType)).Pairwise
      (fun a b => a.rank < b.rank)) :
    (Transcode evs).pulled = (pulledEvents evs).length ∧
    observedStates evs =
      SessionState.Unbound :: (handledEvents evs).filterMap (fun e => stateEntered e.meType) ∧
    (observedStates evs).Pairwise (fun a b => a.rank < b.rank) ∧
    (Transcode evs).commands =
      (handledEvents evs).filterMap (fun e =>
        if e.meType = MediaEventType.MESessionTopologySet then some SessionCommand.Start
        else if e.meType = MediaEventType.MESessionEnded then some SessionCommand.Close
        else none) ∧
    (Transcode evs).commands =
      (if (handledEvents evs).any
          (fun e => decide (e.meType = MediaEventType.MESessionTopologySet)) then
        [SessionCommand.Start] else []) ++
      (if (handledEvents evs).any
          (fun e => decide (e.meType = MediaEventType.MESessionEnded)) then
        [SessionCommand.Close] else []) := by
  obtain ⟨hp, hc, ht⟩ := transcodeLoop_observed evs transcodeInit (by decide)
  have hpos : ∀ st ∈ (handledEvents evs).filterMap (fun e => stateEntered e.meType),
      0 < st.rank := by
    intro st hst
    obtain ⟨e, -, he⟩ := List.mem_filterMap.mp hst
    exact stateEntered_rank_pos _ _ he
  have hstates := observedStates_eq evs
  have hcmd : (Transcode evs).commands =
      (handledEvents evs).filterMap (fun x => commandIssued x.meType) := by
    unfold Transcode handledEvents
    simp only [hc]
    simp [transcodeInit]
  refine ⟨?_, hstates, ?_, ?_, ?_⟩
  · unfold Transcode
    simp only [hp]
    simp [transcodeInit]
  · rw [hstates]
    exact List.pairwise_cons.mpr ⟨fun st hst => hpos st hst, horder⟩
  · rw [hcmd]
    simp only [commandIssued_eq]
  · have hchain := increasing_states_sublist _ hpos horder
    have hkey := commands_of_chain_sublist _ (List.mem_sublists.mpr hchain)
    rw [List.filterMap_filterMap] at hkey
    have hTS := mem_states_iff_any (handledEvents evs) MediaEventType.MESessionTopologySet
      SessionState.TopologySet (fun t => by cases t <;> simp [stateEntered])
    have hEn := mem_states_iff_any (handledEvents evs) MediaEventType.MESessionEnded
      SessionState.Ended (fun t => by cases t <;> simp [stateEntered])
    simp only [hTS, hEn] at hkey
    rw [hcmd]
    simp only [commandIssued_eq_bind]
    exact hkey

/-- Two instances of the amended C13.  First a full lifecycle followed by a
`TopologySet` event that is never pulled: the handled events are the first
four, their types are in forward order, and the fifth event is not
constrained.  Second `Started(ok)` followed by a `TopologySet` event with a
failure status, which is pulled but not handled. -/
theorem Transcode_forward_only_of_ordered_witness :
    ((handledEvents [mkEvent .MESessionTopologySet S_OK S_OK,
        mkEvent .MESessionStarted S_OK S_OK, mkEvent .MESessionEnded S_OK S_OK,
        mkEvent .MESessionClosed S_OK S_OK,
        mkEvent .MESessionTopologySet S_OK S_OK]).filterMap
      (fun e => stateEntered e.meType)).Pairwise (fun a b => a.rank < b.rank) ∧
    handledEvents [mkEvent .MESessionTopologySet S_OK S_OK,
        mkEvent .MESessionStarted S_OK S_OK, mkEvent .MESessionEnded S_OK S_OK,
        mkEvent .MESessionClosed S_OK S_OK, mkEvent .MESessionTopologySet S_OK S_OK] =
      [mkEvent .MESessionTopologySet S_OK S_OK, mkEvent .MESessionStarted S_OK S_OK,
        mkEvent .MESessionEnded S_OK S_OK, mkEvent .MESessionClosed S_OK S_OK] ∧
    observedStates [mkEvent .MESessionTopologySet S_OK S_OK,
        mkEvent .MESessionStarted S_OK S_OK, mkEvent .MESessionEnded S_OK S_OK,
        mkEvent .MESessionClosed S_OK S_OK, mkEvent .MESessionTopologySet S_OK S_OK] =
      [SessionState.Unbound, SessionState.TopologySet, SessionState.Started,
        SessionState.Ended, SessionState.Closed] ∧
    (Transcode [mkEvent .MESessionTopologySet S_OK S_OK,
        mkEvent .MESessionStarted S_OK S_OK, mkEvent .MESessionEnded S_OK S_OK,
        mkEvent .MESessionClosed S_OK S_OK, mkEvent .MESessionTopologySet S_OK S_OK]).commands =
      [SessionCommand.Start, SessionCommand.Close] ∧
    (Transcode [mkEvent .MESessionTopologySet S_OK S_OK,
        mkEvent .MESessionStarted S_OK S_OK, mkEvent .MESessionEnded S_OK S_OK,
        mkEvent .MESessionClosed S_OK S_OK, mkEvent .MESessionTopologySet S_OK S_OK]).pulled =
      4 ∧
    observedStates [mkEvent .MESessionStarted S_OK S_OK,
        mkEvent .MESessionTopologySet E_FAIL S_OK] =
      [SessionState.Unbound, SessionState.Started] ∧
    (Transcode [mkEvent .MESessionStarted S_OK S_OK,
        mkEvent .MESessionTopologySet E_FAIL S_OK]).commands = [] :=
  ⟨by decide, by decide,
    (Transcode_forward_only_of_ordered
      [mkEvent .MESessionTopologySet S_OK S_OK, mkEvent .MESessionStarted S_OK S_OK,
        mkEvent .MESessionEnded S_OK S_OK, mkEvent .MESessionClosed S_OK S_OK,
        mkEvent .MESessionTopologySet S_OK S_OK]
      (by decide)).2.1,
    (Transcode_forward_only_of_ordered
      [mkEvent .MESessionTopologySet S_OK S_OK, mkEvent .MESessionStarted S_OK S_OK,
        mkEvent .MESessionEnded S_OK S_OK, mkEvent .MESessionClosed S_OK S_OK,
        mkEvent .MESessionTopologySet S_OK S_OK]
      (by decide)).2.2.2.2,
    (Transcode_forward_only_of_ordered
      [mkEvent .MESessionTopologySet S_OK S_OK, mkEvent .MESessionStarted S_OK S_OK,
        mkEvent .MESessionEnded S_OK S_OK, mkEvent .MESessionClosed S_OK S_OK,
        mkEvent .MESessionTopologySet S_OK S_OK]
      (by decide)).1,
    (Transcode_forward_only_of_ordered
      [mkEvent .MESessionStarted S_OK S_OK, mkEvent .MESessionTopologySet E_FAIL S_OK]
      (by decide)).2.1,
    (Transcode_forward_only_of_ordered
      [mkEvent .MESessionStarted S_OK S_OK, mkEvent .MESessionTopologySet E_FAIL S_OK]
      (by decide)).2.2.2.2⟩

/-! ## Facts about the attachment of the audio attributes -/

theorem guarded_succeeded {α : Type} (s : HRESULT × α) (call : α → HRESULT × α)
    (h : SUCCEEDED (guarded s call).1 = true) :
    SUCCEEDED s.1 = true ∧ guarded s call = call s.2 := by
  unfold guarded at h ⊢
  cases hs : SUCCEEDED s.1 with
  | true => simp
  | false => simp [hs] at h

theorem outParam_succeeded {α : Type} (hrCall : HRESULT) (new old : α)
    (h : SUCCEEDED (outParam hrCall new old).1 = true) :
    SUCCEEDED hrCall = true ∧ outParam hrCall new old = (hrCall, new) := by
  unfold outParam at h ⊢
  simp only at h
  simp [h]

theorem writes_succeeded (steps : List (HRESULT × AttrKey × AttrValue)) :
    ∀ s : HRESULT × Attributes,
      SUCCEEDED (steps.foldl
        (fun s w => guarded s (fun a => outParam w.1 (SetItem a w.2.1 w.2.2) a)) s).1 = true →
      SUCCEEDED s.1 = true ∧ (∀ w ∈ steps, SUCCEEDED w.1 = true) ∧
      steps.foldl (fun s w => guarded s (fun a => outParam w.1 (SetItem a w.2.1 w.2.2) a)) s =
        ((steps.map (fun w => w.1)).getLastD s.1,
          steps.foldl (fun a w => SetItem a w.2.1 w.2.2) s.2) := by
  induction steps with
  | nil => intro s h; exact ⟨h, by simp, rfl⟩
  | cons w ws ih =>
    intro s h
    simp only [List.foldl_cons] at h ⊢
    obtain ⟨h1, hall, heq⟩ := ih _ h
    obtain ⟨hs, hg⟩ := guarded_succeeded _ _ h1
    rw [hg] at h1
    obtain ⟨hw, ho⟩ := outParam_succeeded _ _ _ h1
    refine ⟨hs, ?_, ?_⟩
    · intro x hx
      rcases List.mem_cons.mp hx with rfl | hx
      · exact hw
      · exact hall x hx
    · rw [heq, hg, ho]
      cases ws <;> simp [List.getLastD]

theorem attach_audio (hr hrCall : HRESULT) (bag : Attributes) (p : TranscodeProfile) :
    (guarded (hr, p) (SetAudioAttributes hrCall bag)).2 = p ∨
      (SUCCEEDED hr = true ∧ SUCCEEDED hrCall = true ∧
        (guarded (hr, p) (SetAudioAttributes hrCall bag)).2 = { p with audio := some bag }) := by
  unfold guarded SetAudioAttributes outParam
  cases h1 : SUCCEEDED hr <;> cases h2 : SUCCEEDED hrCall <;> simp

theorem selectFirstType_succeeded (eng : AudioEngine)
    (h : SUCCEEDED (selectFirstType eng).1 = true) :
    ∃ c rest, eng.availableTypes = c :: rest ∧
      SUCCEEDED eng.hrGetAvailableTypes = true ∧ SUCCEEDED eng.hrGetElementCount = true ∧
      SUCCEEDED eng.hrGetElement = true ∧ SUCCEEDED eng.hrQueryInterface = true ∧
      selectFirstType eng = (eng.hrQueryInterface, c) := by
  have hu : SUCCEEDED E_UNEXPECTED = false := by decide
  revert h
  unfold selectFirstType guarded outParam
  cases h1 : SUCCEEDED eng.hrGetAvailableTypes <;>
    cases h2 : SUCCEEDED eng.hrGetElementCount <;>
    cases h3 : SUCCEEDED eng.hrGetElement <;>
    cases h4 : SUCCEEDED eng.hrQueryInterface <;>
    cases h5 : eng.availableTypes <;>
    simp [h1, h2, h3, h4, hu]

theorem GetGUID_succeeded (hr hrCall : HRESULT) (a : Attributes) (k : AttrKey)
    (h : SUCCEEDED (guarded (hr, GUID.GUID_NULL) (GetGUID hrCall a k)).1 = true) :
    SUCCEEDED hr = true ∧ SUCCEEDED hrCall = true ∧
      ∃ g, GetItem a k = some (AttrValue.guid g) ∧
        guarded (hr, GUID.GUID_NULL) (GetGUID hrCall a k) = (hrCall, g) := by
  have hn : SUCCEEDED MF_E_ATTRIBUTENOTFOUND = false := by decide
  have hi : SUCCEEDED MF_E_INVALIDTYPE = false := by decide
  obtain ⟨hs, hg⟩ := guarded_succeeded _ _ h
  rw [hg] at h ⊢
  simp only at hs
  refine ⟨hs, ?_⟩
  unfold GetGUID at h ⊢
  cases hitem : GetItem a k with
  | none => simp [hitem, hn] at h
  | some v =>
    cases v with
    | guid g =>
      simp only [hitem] at h ⊢
      obtain ⟨hc, ho⟩ := outParam_succeeded _ _ _ h
      exact ⟨hc, g, rfl, ho⟩
    | uint32 _ => simp [hitem, hi] at h
    | uint64 _ => simp [hitem, hi] at h
    | str _ => simp [hitem, hi] at h
    | blob _ => simp [hitem, hi] at h

theorem GetGUID_value_ne_null (hr hrCall : HRESULT) (a : Attributes) (k : AttrKey)
    (h : (guarded (hr, GUID.GUID_NULL) (GetGUID hrCall a k)).2 ≠ GUID.GUID_NULL) :
    SUCCEEDED (guarded (hr, GUID.GUID_NULL) (GetGUID hrCall a k)).1 = true := by
  revert h
  unfold guarded GetGUID outParam
  cases h1 : SUCCEEDED hr <;> cases h2 : SUCCEEDED hrCall <;> cases hitem : GetItem a k with
  | none => simp [h1, h2]
  | some v => cases v <;> simp [h1, h2]

theorem AAC_reconfigure_eq_foldl (eng : AudioEngine) (t : MediaType) (s : HRESULT × Attributes) :
    TranscodeToAAC.reconfigure eng t s =
      [(eng.hrSetItem .MF_MT_MAJOR_TYPE, AttrKey.MF_MT_MAJOR_TYPE,
          AttrValue.guid .MFMediaType_Audio),
        (eng.hrSetItem .MF_MT_SUBTYPE, .MF_MT_SUBTYPE, .guid .MFAudioFormat_AAC),
        (eng.hrSetItem .MF_MT_AUDIO_BITS_PER_SAMPLE, .MF_MT_AUDIO_BITS_PER_SAMPLE,
          .uint32 (MFGetAttributeUINT32 t .MF_MT_AUDIO_BITS_PER_SAMPLE 16)),
        (eng.hrSetItem .MF_MT_AUDIO_SAMPLES_PER_SECOND, .MF_MT_AUDIO_SAMPLES_PER_SECOND,
          .uint32 (MFGetAttributeUINT32 t .MF_MT_AUDIO_SAMPLES_PER_SECOND 0)),
        (eng.hrSetItem .MF_MT_AUDIO_NUM_CHANNELS, .MF_MT_AUDIO_NUM_CHANNELS,
          .uint32 (MFGetAttributeUINT32 t .MF_MT_AUDIO_NUM_CHANNELS 0)),
        (eng.hrSetItem .MF_MT_AUDIO_AVG_BYTES_PER_SECOND, .MF_MT_AUDIO_AVG_BYTES_PER_SECOND,
          .uint32 (MFGetAttributeUINT32 t .MF_MT_AUDIO_AVG_BYTES_PER_SECOND 0)),
        (eng.hrSetItem .MF_MT_AAC_PAYLOAD_TYPE, .MF_MT_AAC_PAYLOAD_TYPE,
          .uint32 (MFGetAttributeUINT32 t .MF_MT_AAC_PAYLOAD_TYPE 0)),
        (eng.hrSetItem .MF_MT_AAC_AUDIO_PROFILE_LEVEL_INDICATION,
          .MF_MT_AAC_AUDIO_PROFILE_LEVEL_INDICATION,
          .uint32 (MFGetAttributeUINT32 t .MF_MT_AAC_AUDIO_PROFILE_LEVEL_INDICATION 0)),
        (eng.hrSetItem .MF_MT_AUDIO_BLOCK_ALIGNMENT, .MF_MT_AUDIO_BLOCK_ALIGNMENT,
          .uint32 (MFGetAttributeUINT32 t .MF_MT_AUDIO_BLOCK_ALIGNMENT 0)),
        (eng.hrSetItem .MF_MT_ALL_SAMPLES_INDEPENDENT, .MF_MT_ALL_SAMPLES_INDEPENDENT,
          .uint32 (MFGetAttributeUINT32 t .MF_MT_ALL_SAMPLES_INDEPENDENT 0))].foldl
        (fun s w => guarded s (fun a => outParam w.1 (SetItem a w.2.1 w.2.2) a)) s :=
  rfl

theorem copy_succeeded (hr hrCreate hrCopy : HRESULT) (t : MediaType)
    (h : SUCCEEDED (guarded (guarded (hr, ([] : Attributes))
        (fun old => outParam hrCreate [] old))
        (fun old => outParam hrCopy t old)).1 = true) :
    SUCCEEDED hr = true ∧ SUCCEEDED hrCreate = true ∧ SUCCEEDED hrCopy = true ∧
      guarded (guarded (hr, ([] : Attributes)) (fun old => outParam hrCreate [] old))
        (fun old => outParam hrCopy t old) = (hrCopy, t) := by
  obtain ⟨h1, hg1⟩ := guarded_succeeded _ _ h
  rw [hg1] at h ⊢
  obtain ⟨hcopy, ho⟩ := outParam_succeeded _ _ _ h
  obtain ⟨h2, hg2⟩ := guarded_succeeded _ _ h1
  rw [hg2] at h1
  obtain ⟨hcreate, -⟩ := outParam_succeeded _ _ _ h1
  exact ⟨h2, hcreate, hcopy, ho⟩

theorem AAC_attach_only_if (eng : AudioEngine) (m_pProfile : TranscodeProfile) :
    (TranscodeToAAC.ConfigureAudioOutput eng m_pProfile).2 = m_pProfile ∨
    ∃ c rest g, eng.availableTypes = c :: rest ∧
      SUCCEEDED eng.hrGetAvailableTypes = true ∧ SUCCEEDED eng.hrGetElementCount = true ∧
      SUCCEEDED eng.hrGetElement = true ∧ SUCCEEDED eng.hrQueryInterface = true ∧
      SUCCEEDED eng.hrCreateAttributes = true ∧ SUCCEEDED eng.hrCopyAllItems = true ∧
      SUCCEEDED (eng.hrGetGUID .MF_MT_MAJOR_TYPE) = true ∧
      GetItem c .MF_MT_MAJOR_TYPE = some (.guid .MFMediaType_Audio) ∧
      SUCCEEDED (eng.hrGetGUID .MF_MT_SUBTYPE) = true ∧
      GetItem c .MF_MT_SUBTYPE = some (.guid g) ∧
      SUCCEEDED eng.hrSetAudioAttributes = true ∧
      ((g = GUID.MFAudioFormat_AAC ∧
          (TranscodeToAAC.ConfigureAudioOutput eng m_pProfile).2 =
            { m_pProfile with audio := some c }) ∨
       (g ≠ GUID.MFAudioFormat_AAC ∧
          (∀ k ∈ [AttrKey.MF_MT_MAJOR_TYPE, AttrKey.MF_MT_SUBTYPE,
              AttrKey.MF_MT_AUDIO_BITS_PER_SAMPLE, AttrKey.MF_MT_AUDIO_SAMPLES_PER_SECOND,
              AttrKey.MF_MT_AUDIO_NUM_CHANNELS, AttrKey.MF_MT_AUDIO_AVG_BYTES_PER_SECOND,
              AttrKey.MF_MT_AAC_PAYLOAD_TYPE, AttrKey.MF_MT_AAC_AUDIO_PROFILE_LEVEL_INDICATION,
              AttrKey.MF_MT_AUDIO_BLOCK_ALIGNMENT, AttrKey.MF_MT_ALL_SAMPLES_INDEPENDENT],
            SUCCEEDED (eng.hrSetItem k) = true) ∧
          (TranscodeToAAC.ConfigureAudioOutput eng m_pProfile).2 =
            { m_pProfile with
              audio := some (List.foldl (fun a kv => SetItem a kv.1 kv.2) c
                [(AttrKey.MF_MT_MAJOR_TYPE, AttrValue.guid .MFMediaType_Audio),
                (.MF_MT_SUBTYPE, .guid .MFAudioFormat_AAC),
                (.MF_MT_AUDIO_BITS_PER_SAMPLE,
                  .uint32 (MFGetAttributeUINT32 c .MF_MT_AUDIO_BITS_PER_SAMPLE 16)),
                (.MF_MT_AUDIO_SAMPLES_PER_SECOND,
                  .uint32 (MFGetAttributeUINT32 c .MF_MT_AUDIO_SAMPLES_PER_SECOND 0)),
                (.MF_MT_AUDIO_NUM_CHANNELS,
                  .uint32 (MFGetAttributeUINT32 c .MF_MT_AUDIO_NUM_CHANNELS 0)),
                (.MF_MT_AUDIO_AVG_BYTES_PER_SECOND,
                  .uint32 (MFGetAttributeUINT32 c .MF_MT_AUDIO_AVG_BYTES_PER_SECOND 0)),
                (.MF_MT_AAC_PAYLOAD_TYPE,
                  .uint32 (MFGetAttributeUINT32 c .MF_MT_AAC_PAYLOAD_TYPE 0)),
                (.MF_MT_AAC_AUDIO_PROFILE_LEVEL_INDICATION,
                  .uint32 (MFGetAttributeUINT32 c
                    .MF_MT_AAC_AUDIO_PROFILE_LEVEL_INDICATION 0)),
                (.MF_MT_AUDIO_BLOCK_ALIGNMENT,
                  .uint32 (MFGetAttributeUINT32 c .MF_MT_AUDIO_BLOCK_ALIGNMENT 0)),
                (.MF_MT_ALL_SAMPLES_INDEPENDENT,
                  .uint32 (MFGetAttributeUINT32 c .MF_MT_ALL_SAMPLES_INDEPENDENT 0))]) })) := by
  unfold TranscodeToAAC.ConfigureAudioOutput
  simp only []
  split
  · left; rfl
  · rename_i hmaj
    have hmaj2 := of_not_not hmaj
    have hmsucc := GetGUID_value_ne_null _ _ _ _ (by rw [hmaj2]; decide)
    obtain ⟨hcp, hgm, g0, hitem0, hmajor⟩ := GetGUID_succeeded _ _ _ _ hmsucc
    obtain ⟨hsel, hcreate, hcopy, hattrs⟩ := copy_succeeded _ _ _ _ hcp
    obtain ⟨c, rest, htypes, h1, h2, h3, h4, hselEq⟩ := selectFirstType_succeeded eng hsel
    rw [hmajor] at hmaj2
    simp only at hmaj2
    subst hmaj2
    rw [hselEq] at hattrs hmajor hitem0
    simp only at hattrs hmajor hitem0
    rw [hattrs] at hmajor
    simp only at hmajor
    simp only [hselEq, hattrs, hmajor]
    generalize hsubdef : guarded (eng.hrGetGUID .MF_MT_MAJOR_TYPE, GUID.GUID_NULL)
      (GetGUID (eng.hrGetGUID .MF_MT_SUBTYPE) c .MF_MT_SUBTYPE) = sub
    by_cases hs : sub.2 = GUID.MFAudioFormat_AAC
    · simp only [hs, ne_eq, not_true_eq_false, if_false]
      rcases attach_audio sub.1 eng.hrSetAudioAttributes c m_pProfile with h | ⟨hfin, hatt, hres⟩
      · left; exact h
      · right
        rw [← hsubdef] at hfin
        obtain ⟨-, hgs, g, hitem, hsubEq⟩ := GetGUID_succeeded _ _ _ _ hfin
        have hg : g = GUID.MFAudioFormat_AAC := by
          rw [hsubdef] at hsubEq; rw [hsubEq] at hs; exact hs
        exact ⟨c, rest, g, htypes, h1, h2, h3, h4, hcreate, hcopy, hgm, hitem0, hgs, hitem,
          hatt, Or.inl ⟨hg, hres⟩⟩
    · simp only [hs, ne_eq, not_false_eq_true, if_true]
      rcases attach_audio (TranscodeToAAC.reconfigure eng c (sub.1, c)).1
        eng.hrSetAudioAttributes (TranscodeToAAC.reconfigure eng c (sub.1, c)).2 m_pProfile
        with h | ⟨hfin, hatt, hres⟩
      · left; exact h
      · right
        rw [AAC_reconfigure_eq_foldl] at hfin hres
        obtain ⟨hsub1, hall, heq⟩ := writes_succeeded _ _ hfin
        simp only at hsub1
        rw [← hsubdef] at hsub1
        obtain ⟨-, hgs, g, hitem, hsubEq⟩ := GetGUID_succeeded _ _ _ _ hsub1
        have hg : g ≠ GUID.MFAudioFormat_AAC := by
          rw [hsubdef] at hsubEq; rw [hsubEq] at hs; exact hs
        refine ⟨c, rest, g, htypes, h1, h2, h3, h4, hcreate, hcopy, hgm, hitem0, hgs, hitem,
          hatt, Or.inr ⟨hg, ?_, ?_⟩⟩
        · simp only [List.forall_mem_cons, List.not_mem_nil, false_implies, implies_true,
            and_true] at hall
          intro k hk
          simp only [List.mem_cons, List.mem_singleton, List.not_mem_nil, or_false] at hk
          rcases hk with rfl | rfl | rfl | rfl | rfl | rfl | rfl | rfl | rfl | rfl
          all_goals simp only [hall]
        · rw [AAC_reconfigure_eq_foldl, hres, heq]
          simp [List.foldl]

theorem guarded_of_failed {α : Type} (s : HRESULT × α) (call : α → HRESULT × α)
    (h : SUCCEEDED s.1 = false) : guarded s call = s := by
  simp [guarded, h]

theorem MP3_numeric_writes (eng : AudioEngine) (t : MediaType) (s2 : HRESULT × Attributes) :
    guarded (guarded (guarded (guarded s2
        (SetUINT32 (eng.hrSetItem .MF_MT_AUDIO_BLOCK_ALIGNMENT) .MF_MT_AUDIO_BLOCK_ALIGNMENT
          (if SUCCEEDED s2.1 then MFGetAttributeUINT32 t .MF_MT_AUDIO_BLOCK_ALIGNMENT 0
            else 0)))
        (SetUINT32 (eng.hrSetItem .MF_MT_AUDIO_AVG_BYTES_PER_SECOND)
          .MF_MT_AUDIO_AVG_BYTES_PER_SECOND
          (if SUCCEEDED s2.1 then MFGetAttributeUINT32 t .MF_MT_AUDIO_AVG_BYTES_PER_SECOND 0
            else 0)))
        (SetUINT32 (eng.hrSetItem .MF_MT_AUDIO_NUM_CHANNELS) .MF_MT_AUDIO_NUM_CHANNELS
          (if SUCCEEDED s2.1 then MFGetAttributeUINT32 t .MF_MT_AUDIO_NUM_CHANNELS 0 else 0)))
        (SetUINT32 (eng.hrSetItem .MF_MT_AUDIO_SAMPLES_PER_SECOND)
          .MF_MT_AUDIO_SAMPLES_PER_SECOND
          (if SUCCEEDED s2.1 then MFGetAttributeUINT32 t .MF_MT_AUDIO_SAMPLES_PER_SECOND 0
            else 0)) =
      guarded (guarded (guarded (guarded s2
        (SetUINT32 (eng.hrSetItem .MF_MT_AUDIO_BLOCK_ALIGNMENT) .MF_MT_AUDIO_BLOCK_ALIGNMENT
          (MFGetAttributeUINT32 t .MF_MT_AUDIO_BLOCK_ALIGNMENT 0)))
        (SetUINT32 (eng.hrSetItem .MF_MT_AUDIO_AVG_BYTES_PER_SECOND)
          .MF_MT_AUDIO_AVG_BYTES_PER_SECOND
          (MFGetAttributeUINT32 t .MF_MT_AUDIO_AVG_BYTES_PER_SECOND 0)))
        (SetUINT32 (eng.hrSetItem .MF_MT_AUDIO_NUM_CHANNELS) .MF_MT_AUDIO_NUM_CHANNELS
          (MFGetAttributeUINT32 t .MF_MT_AUDIO_NUM_CHANNELS 0)))
        (SetUINT32 (eng.hrSetItem .MF_MT_AUDIO_SAMPLES_PER_SECOND)
          .MF_MT_AUDIO_SAMPLES_PER_SECOND
          (MFGetAttributeUINT32 t .MF_MT_AUDIO_SAMPLES_PER_SECOND 0)) := by
  cases h : SUCCEEDED s2.1 with
  | true => simp
  | false =>
    have hg : ∀ call : Attributes → HRESULT × Attributes, guarded s2 call = s2 :=
      fun call => guarded_of_failed s2 call h
    simp only [hg]

theorem MP3_reconfigure_eq_foldl (eng : AudioEngine) (t : MediaType) (s : HRESULT × Attributes) :
    TranscodeToMp4MP3.reconfigure eng t s =
      [(eng.hrSetItem .MF_MT_MAJOR_TYPE, AttrKey.MF_MT_MAJOR_TYPE,
          AttrValue.guid .MFMediaType_Audio),
        (eng.hrSetItem .MF_MT_SUBTYPE, .MF_MT_SUBTYPE, .guid .MFAudioFormat_MP3),
        (eng.hrSetItem .MF_MT_AUDIO_BLOCK_ALIGNMENT, .MF_MT_AUDIO_BLOCK_ALIGNMENT,
          .uint32 (MFGetAttributeUINT32 t .MF_MT_AUDIO_BLOCK_ALIGNMENT 0)),
        (eng.hrSetItem .MF_MT_AUDIO_AVG_BYTES_PER_SECOND, .MF_MT_AUDIO_AVG_BYTES_PER_SECOND,
          .uint32 (MFGetAttributeUINT32 t .MF_MT_AUDIO_AVG_BYTES_PER_SECOND 0)),
        (eng.hrSetItem .MF_MT_AUDIO_NUM_CHANNELS, .MF_MT_AUDIO_NUM_CHANNELS,
          .uint32 (MFGetAttributeUINT32 t .MF_MT_AUDIO_NUM_CHANNELS 0)),
        (eng.hrSetItem .MF_MT_AUDIO_SAMPLES_PER_SECOND, .MF_MT_AUDIO_SAMPLES_PER_SECOND,
          .uint32 (MFGetAttributeUINT32 t .MF_MT_AUDIO_SAMPLES_PER_SECOND 0))].foldl
        (fun s w => guarded s (fun a => outParam w.1 (SetItem a w.2.1 w.2.2) a)) s := by
  unfold TranscodeToMp4MP3.reconfigure
  exact MP3_numeric_writes eng t _

theorem MP3_attach_only_if (eng : AudioEngine) (m_pProfile : TranscodeProfile) :
    (TranscodeToMp4MP3.ConfigureAudioOutput eng m_pProfile).2 = m_pProfile ∨
    ∃ c rest g, eng.availableTypes = c :: rest ∧
      SUCCEEDED eng.hrGetAvailableTypes = true ∧ SUCCEEDED eng.hrGetElementCount = true ∧
      SUCCEEDED eng.hrGetElement = true ∧ SUCCEEDED eng.hrQueryInterface = true ∧
      SUCCEEDED (eng.hrGetGUID .MF_MT_MAJOR_TYPE) = true ∧
      GetItem c .MF_MT_MAJOR_TYPE = some (.guid .MFMediaType_Audio) ∧
      SUCCEEDED (eng.hrGetGUID .MF_MT_SUBTYPE) = true ∧
      GetItem c .MF_MT_SUBTYPE = some (.guid g) ∧
      SUCCEEDED eng.hrCreateAttributes = true ∧ SUCCEEDED eng.hrCopyAllItems = true ∧
      (∀ k ∈ [AttrKey.MF_MT_MAJOR_TYPE, AttrKey.MF_MT_SUBTYPE,
          AttrKey.MF_MT_AUDIO_BLOCK_ALIGNMENT, AttrKey.MF_MT_AUDIO_AVG_BYTES_PER_SECOND,
          AttrKey.MF_MT_AUDIO_NUM_CHANNELS, AttrKey.MF_MT_AUDIO_SAMPLES_PER_SECOND],
        SUCCEEDED (eng.hrSetItem k) = true) ∧
      SUCCEEDED eng.hrSetAudioAttributes = true ∧
      (TranscodeToMp4MP3.ConfigureAudioOutput eng m_pProfile).2 =
        { m_pProfile with
          audio := some (List.foldl (fun a kv => SetItem a kv.1 kv.2) c
            [(AttrKey.MF_MT_MAJOR_TYPE, AttrValue.guid .MFMediaType_Audio),
            (.MF_MT_SUBTYPE, .guid .MFAudioFormat_MP3),
            (.MF_MT_AUDIO_BLOCK_ALIGNMENT,
              .uint32 (MFGetAttributeUINT32 c .MF_MT_AUDIO_BLOCK_ALIGNMENT 0)),
            (.MF_MT_AUDIO_AVG_BYTES_PER_SECOND,
              .uint32 (MFGetAttributeUINT32 c .MF_MT_AUDIO_AVG_BYTES_PER_SECOND 0)),
            (.MF_MT_AUDIO_NUM_CHANNELS,
              .uint32 (MFGetAttributeUINT32 c .MF_MT_AUDIO_NUM_CHANNELS 0)),
            (.MF_MT_AUDIO_SAMPLES_PER_SECOND,
              .uint32 (MFGetAttributeUINT32 c .MF_MT_AUDIO_SAMPLES_PER_SECOND 0))]) } := by
  unfold TranscodeToMp4MP3.ConfigureAudioOutput
  simp only []
  split
  · left; rfl
  · rename_i hmaj
    have hmaj2 := of_not_not hmaj
    have hmsucc := GetGUID_value_ne_null _ _ _ _ (by rw [hmaj2]; decide)
    obtain ⟨hsel, hgm, g0, hitem0, hmajor⟩ := GetGUID_succeeded _ _ _ _ hmsucc
    obtain ⟨c, rest, htypes, h1, h2, h3, h4, hselEq⟩ := selectFirstType_succeeded eng hsel
    rw [hmajor] at hmaj2
    simp only at hmaj2
    subst hmaj2
    rw [hselEq] at hmajor hitem0
    simp only at hmajor hitem0
    simp only [hselEq, hmajor]
    generalize hsubdef : guarded (eng.hrGetGUID .MF_MT_MAJOR_TYPE, GUID.GUID_NULL)
      (GetGUID (eng.hrGetGUID .MF_MT_SUBTYPE) c .MF_MT_SUBTYPE) = sub
    generalize hattrsdef : guarded (guarded (sub.1, ([] : Attributes))
        (fun old => outParam eng.hrCreateAttributes [] old))
      (fun old => outParam eng.hrCopyAllItems c old) = attrs
    rcases attach_audio (TranscodeToMp4MP3.reconfigure eng c attrs).1
      eng.hrSetAudioAttributes (TranscodeToMp4MP3.reconfigure eng c attrs).2 m_pProfile
      with h | ⟨hfin, hatt, hres⟩
    · left; exact h
    · right
      rw [MP3_reconfigure_eq_foldl] at hfin hres
      obtain ⟨hattrs1, hall, heq⟩ := writes_succeeded _ _ hfin
      rw [← hattrsdef] at hattrs1
      obtain ⟨hsub1, hcreate, hcopy, hattrsEq⟩ := copy_succeeded _ _ _ _ hattrs1
      rw [hattrsdef] at hattrsEq
      rw [← hsubdef] at hsub1
      obtain ⟨-, hgs, g, hitem, -⟩ := GetGUID_succeeded _ _ _ _ hsub1
      refine ⟨c, rest, g, htypes, h1, h2, h3, h4, hgm, hitem0, hgs, hitem, hcreate, hcopy,
        ?_, hatt, ?_⟩
      · simp only [List.forall_mem_cons, List.not_mem_nil, false_implies, implies_true,
          and_true] at hall
        intro k hk
        simp only [List.mem_cons, List.mem_singleton, List.not_mem_nil, or_false] at hk
        rcases hk with rfl | rfl | rfl | rfl | rfl | rfl
        all_goals simp only [hall]
      · rw [MP3_reconfigure_eq_foldl, hres, heq, hattrsEq]
        simp [List.foldl]

/-- C15 (all-or-nothing attachment of the audio attributes): in both variants
and for every outcome of the engine calls, `ConfigureAudioOutput` either
leaves the profile as it was, or every step succeeded (the enumeration, the
count, a non-empty collection, the fetch of element 0 and its query, the
creation and the copy of the store, both GUID reads with major type audio,
every write that the variant performs, and `SetAudioAttributes`) and the
audio store of the profile is the complete one: candidate 0's own items when
the AAC variant finds subtype AAC, and otherwise candidate 0's items with
every one of the variant's writes applied. -/
theorem ConfigureAudioOutput_all_or_nothing (eng : AudioEngine)
    (m_pProfile : TranscodeProfile) :
    ((TranscodeToAAC.ConfigureAudioOutput eng m_pProfile).2 = m_pProfile ∨
      ∃ c rest g, eng.availableTypes = c :: rest ∧
        SUCCEEDED eng.hrGetAvailableTypes = true ∧ SUCCEEDED eng.hrGetElementCount = true ∧
        SUCCEEDED eng.hrGetElement = true ∧ SUCCEEDED eng.hrQueryInterface = true ∧
        SUCCEEDED eng.hrCreateAttributes = true ∧ SUCCEEDED eng.hrCopyAllItems = true ∧
        SUCCEEDED (eng.hrGetGUID .MF_MT_MAJOR_TYPE) = true ∧
        GetItem c .MF_MT_MAJOR_TYPE = some (.guid .MFMediaType_Audio) ∧
        SUCCEEDED (eng.hrGetGUID .MF_MT_SUBTYPE) = true ∧
        GetItem c .MF_MT_SUBTYPE = some (.guid g) ∧
        SUCCEEDED eng.hrSetAudioAttributes = true ∧
        ((g = GUID.MFAudioFormat_AAC ∧
            (TranscodeToAAC.ConfigureAudioOutput eng m_pProfile).2 =
              { m_pProfile with audio := some c }) ∨
         (g ≠ GUID.MFAudioFormat_AAC ∧
            (∀ k ∈ [AttrKey.MF_MT_MAJOR_TYPE, AttrKey.MF_MT_SUBTYPE,
                AttrKey.MF_MT_AUDIO_BITS_PER_SAMPLE, AttrKey.MF_MT_AUDIO_SAMPLES_PER_SECOND,
                AttrKey.MF_MT_AUDIO_NUM_CHANNELS, AttrKey.MF_MT_AUDIO_AVG_BYTES_PER_SECOND,
                AttrKey.MF_MT_AAC_PAYLOAD_TYPE,
                AttrKey.MF_MT_AAC_AUDIO_PROFILE_LEVEL_INDICATION,
                AttrKey.MF_MT_AUDIO_BLOCK_ALIGNMENT, AttrKey.MF_MT_ALL_SAMPLES_INDEPENDENT],
              SUCCEEDED (eng.hrSetItem k) = true) ∧
            (TranscodeToAAC.ConfigureAudioOutput eng m_pProfile).2 =
              { m_pProfile with
                audio := some (List.foldl (fun a kv => SetItem a kv.1 kv.2) c
                  [(AttrKey.MF_MT_MAJOR_TYPE, AttrValue.guid .MFMediaType_Audio),
                  (.MF_MT_SUBTYPE, .guid .MFAudioFormat_AAC),
                  (.MF_MT_AUDIO_BITS_PER_SAMPLE,
                    .uint32 (MFGetAttributeUINT32 c .MF_MT_AUDIO_BITS_PER_SAMPLE 16)),
                  (.MF_MT_AUDIO_SAMPLES_PER_SECOND,
                    .uint32 (MFGetAttributeUINT32 c .MF_MT_AUDIO_SAMPLES_PER_SECOND 0)),
                  (.MF_MT_AUDIO_NUM_CHANNELS,
                    .uint32 (MFGetAttributeUINT32 c .MF_MT_AUDIO_NUM_CHANNELS 0)),
                  (.MF_MT_AUDIO_AVG_BYTES_PER_SECOND,
                    .uint32 (MFGetAttributeUINT32 c .MF_MT_AUDIO_AVG_BYTES_PER_SECOND 0)),
                  (.MF_MT_AAC_PAYLOAD_TYPE,
                    .uint32 (MFGetAttributeUINT32 c .MF_MT_AAC_PAYLOAD_TYPE 0)),
                  (.MF_MT_AAC_AUDIO_PROFILE_LEVEL_INDICATION,
                    .uint32 (MFGetAttributeUINT32 c
                      .MF_MT_AAC_AUDIO_PROFILE_LEVEL_INDICATION 0)),
                  (.MF_MT_AUDIO_BLOCK_ALIGNMENT,
                    .uint32 (MFGetAttributeUINT32 c .MF_MT_AUDIO_BLOCK_ALIGNMENT 0)),
                  (.MF_MT_ALL_SAMPLES_INDEPENDENT,
                    .uint32 (MFGetAttributeUINT32 c .MF_MT_ALL_SAMPLES_INDEPENDENT 0))]) }))) ∧
    ((TranscodeToMp4MP3.ConfigureAudioOutput eng m_pProfile).2 = m_pProfile ∨
      ∃ c rest g, eng.availableTypes = c :: rest ∧
        SUCCEEDED eng.hrGetAvailableTypes = true ∧ SUCCEEDED eng.hrGetElementCount = true ∧
        SUCCEEDED eng.hrGetElement = true ∧ SUCCEEDED eng.hrQueryInterface = true ∧
        SUCCEEDED (eng.hrGetGUID .MF_MT_MAJOR_TYPE) = true ∧
        GetItem c .MF_MT_MAJOR_TYPE = some (.guid .MFMediaType_Audio) ∧
        SUCCEEDED (eng.hrGetGUID .MF_MT_SUBTYPE) = true ∧
        GetItem c .MF_MT_SUBTYPE = some (.guid g) ∧
        SUCCEEDED eng.hrCreateAttributes = true ∧ SUCCEEDED eng.hrCopyAllItems = true ∧
        (∀ k ∈ [AttrKey.MF_MT_MAJOR_TYPE, AttrKey.MF_MT_SUBTYPE,
            AttrKey.MF_MT_AUDIO_BLOCK_ALIGNMENT, AttrKey.MF_MT_AUDIO_AVG_BYTES_PER_SECOND,
            AttrKey.MF_MT_AUDIO_NUM_CHANNELS, AttrKey.MF_MT_AUDIO_SAMPLES_PER_SECOND],
          SUCCEEDED (eng.hrSetItem k) = true) ∧
        SUCCEEDED eng.hrSetAudioAttributes = true ∧
        (TranscodeToMp4MP3.ConfigureAudioOutput eng m_pProfile).2 =
          { m_pProfile with
            audio := some (List.foldl (fun a kv => SetItem a kv.1 kv.2) c
              [(AttrKey.MF_MT_MAJOR_TYPE, AttrValue.guid .MFMediaType_Audio),
              (.MF_MT_SUBTYPE, .guid .MFAudioFormat_MP3),
              (.MF_MT_AUDIO_BLOCK_ALIGNMENT,
                .uint32 (MFGetAttributeUINT32 c .MF_MT_AUDIO_BLOCK_ALIGNMENT 0)),
              (.MF_MT_AUDIO_AVG_BYTES_PER_SECOND,
                .uint32 (MFGetAttributeUINT32 c .MF_MT_AUDIO_AVG_BYTES_PER_SECOND 0)),
              (.MF_MT_AUDIO_NUM_CHANNELS,
                .uint32 (MFGetAttributeUINT32 c .MF_MT_AUDIO_NUM_CHANNELS 0)),
              (.MF_MT_AUDIO_SAMPLES_PER_SECOND,
                .uint32 (MFGetAttributeUINT32 c .MF_MT_AUDIO_SAMPLES_PER_SECOND 0))]) }) :=
  ⟨AAC_attach_only_if eng m_pProfile, MP3_attach_only_if eng m_pProfile⟩

end WindowSDK
